import Mathlib

/-!
# The create callbacks of gorm (`callback_create.go`)

A shallow embedding of the create chain: the registration done by `init`, the
lifecycle hook steps, the timestamp step, the insert step (`createCallback`)
and the reload step (`forceReloadAfterCreateCallback`).

The `*Scope` that every callback mutates is an explicit state (`Scope`) that
each step takes and returns.  What the callbacks obtain from collaborators
outside `callback_create.go` (dialect, driver, clock, field introspection,
user hooks) is gathered in `Env`.  Every externally visible effect of a step,
and every write to a field of the entity, is appended to `Scope.log`.
-/

namespace Gorm

/-- An error value (Go `error`), identified by its message. -/
abbrev Err := String

/-- The error `ErrUnaddressable` of gorm. -/
def ErrUnaddressable : Err := "using unaddressable value"

/-- A Go value held by a struct field or bound as an SQL parameter. -/
inductive Value where
  | null
  | int (n : Int)
  | str (s : String)
  | time (t : Nat)
  deriving DecidableEq, Repr

/-- The zero-value check behind `IsBlank`. -/
def Value.isZero : Value → Bool
  | .null => true
  | .int n => n == 0
  | .str s => s == ""
  | .time t => t == 0

/-- The relationship descriptor of a field: `Kind` and `ForeignDBNames`. -/
structure Relationship where
  Kind : String
  ForeignDBNames : List String
  deriving DecidableEq, Repr

/-- The static description of a struct field (`*StructField`), as far as the
create callbacks read it. -/
structure StructField where
  Name : String
  DBName : String
  IsPrimaryKey : Bool
  IsNormal : Bool
  IsIgnored : Bool
  HasDefaultValue : Bool
  Relationship : Option Relationship
  deriving DecidableEq, Repr

/-- A field of the snapshot (`*Field`): its description, the mutable flag
`IsBlank`, whether its value is addressable (`Field.CanAddr()`) and the value
itself (`value`, in Go the member `Field`). -/
structure Field extends StructField where
  IsBlank : Bool
  CanAddr : Bool
  value : Value
  deriving DecidableEq, Repr

/-- Modelled from the spec: `Field.Set` is not part of `callback_create.go`.
The spec has the steps "set" a timestamp and "assign" the generated id, calls
is-blank the zero-value check, and names one failure, the unaddressable target
that cannot receive the value.  On an addressable field the value is replaced,
`IsBlank` is recomputed from it and the `error` result is nil; a field that is
not addressable is left as it was and the result is `ErrUnaddressable`. -/
def Field.Set (f : Field) (v : Value) : Field × Option Err :=
  if f.CanAddr then ({ f with value := v, IsBlank := v.isZero }, none)
  else (f, some ErrUnaddressable)

/-- What a step does that is visible from outside, and each write to a field of
the entity (the field is named by its position in the snapshot). -/
inductive Event where
  | callMethod (name : String)
  | set (field : Nat) (v : Value)
  | exec (sql : String) (vars : List Value)
  | queryRow (sql : String) (vars : List Value)
  | scan (field : Nat) (v : Value)
  | find (table : String) (columns : List String) (conds : List (String × Value))
  deriving DecidableEq, Repr

/-- The result of a successful `Exec`: `RowsAffected()` (whose error the code
drops) and `LastInsertId()`. -/
structure Result where
  RowsAffected : Int
  LastInsertId : Except Err Int

/-- The per-operation context (`*Scope` with its `*DB`).  `settings` is what
`scope.Get` reads, `instanceValues` what `InstanceSet` and `InstanceGet` use,
`clock` counts the readings of `nowFunc` taken so far. -/
structure Scope where
  fields : List Field
  Error : Option Err
  SQL : String
  SQLVars : List Value
  RowsAffected : Int
  settings : List (String × String)
  instanceValues : List (String × List String)
  clock : Nat
  log : List Event
  deriving DecidableEq, Repr

/-- The collaborators of the callbacks that are not part of
`callback_create.go`, taken as parameters:
the clock (`nowFunc n` is its reading number `n`), `strings.ToUpper` of the Go
library (`ToUpper`), the dialect (`Quote`,
`BindVar`, `DefaultValueStr`, `LastInsertIDReturningSuffix`,
`LastInsertIDOutputInterstitial`), the table name, `changeableField`, the
lookups `FieldByName` and `PrimaryField` (functions of the static field
descriptions, answering with a position in the snapshot), the driver (`Exec`,
and `QueryRow` followed by `Scan`, which yields the scanned value), the user
hooks (`method name` acts on the entity and may return an error; an absent hook
is the one that changes nothing and returns no error) and the read used by the
reload step (`find`, which yields the entity after the result was copied onto
it). -/
structure Env where
  nowFunc : Nat → Value
  Quote : String → String
  BindVar : Nat → String
  ToUpper : String → String
  DefaultValueStr : String
  LastInsertIDReturningSuffix : String → String → String
  LastInsertIDOutputInterstitial : String → String → List String → String
  TableName : String
  QuotedTableName : String
  changeableField : Field → Bool
  fieldByName : List StructField → String → Option Nat
  primaryField : List StructField → Option Nat
  Exec : String → List Value → Except Err Result
  QueryRow : String → List Value → Except Err Value
  method : String → List Field → List Field × Option Err
  find : String → List String → List (String × Value) → List Field → List Field

/-- Modelled from the spec: `scope.HasError` is not part of
`callback_create.go`.  The scope has an error when its single error slot is
filled. -/
def Scope.HasError (s : Scope) : Bool := s.Error.isSome

/-- Modelled from the spec: `scope.Err` is not part of `callback_create.go`.
A nil error changes nothing; otherwise the error slot is filled, and the first
error wins. -/
def Scope.Err (s : Scope) (err : Option Err) : Scope :=
  match err with
  | none => s
  | some e =>
    match s.Error with
    | none => { s with Error := some e }
    | some _ => s

/-- Go: `scope.FieldByName(name)`: the position and the current content of the
field found, the lookup itself being `Env.fieldByName`. -/
def Scope.FieldByName (env : Env) (s : Scope) (name : String) : Option (Nat × Field) :=
  match env.fieldByName (s.fields.map Field.toStructField) name with
  | none => none
  | some i =>
    match s.fields[i]? with
    | none => none
    | some f => some (i, f)

/-- Go: `scope.PrimaryField()`: the position and the current content of the
primary field, or `none` for nil. -/
def Scope.PrimaryField (env : Env) (s : Scope) : Option (Nat × Field) :=
  match env.primaryField (s.fields.map Field.toStructField) with
  | none => none
  | some i =>
    match s.fields[i]? with
    | none => none
    | some f => some (i, f)

/-- The call `field.Set(v)` on the field at position `i` of the snapshot, whose
content is `f`: the scope after it and the `error` it returns.  A write is
logged when the field received the value. -/
def Scope.setField (s : Scope) (i : Nat) (f : Field) (v : Value) : Scope × Option Gorm.Err :=
  match f.Set v with
  | (g, none) => ({ s with fields := s.fields.set i g, log := s.log ++ [Event.set i v] }, none)
  | (_, some err) => (s, some err)

/-- Modelled from the spec: `scope.CallMethod` is not part of
`callback_create.go`.  It invokes the optional hook `name` on the target entity
and puts the error the hook returns, if any, on the scope. -/
def Scope.CallMethod (env : Env) (s : Scope) (name : String) : Scope :=
  Scope.Err
    { s with fields := (env.method name s.fields).1, log := s.log ++ [Event.callMethod name] }
    (env.method name s.fields).2

/-- Modelled from the spec: `scope.AddToVars` is not part of
`callback_create.go`.  The value joins the ordered bound parameters and the
result is the dialect's placeholder for its position (counted from 1). -/
def Scope.AddToVars (env : Env) (s : Scope) (v : Value) : Scope × String :=
  ({ s with SQLVars := s.SQLVars ++ [v] }, env.BindVar (s.SQLVars.length + 1))

/-- Modelled from the spec: `scope.InstanceSet` is not part of
`callback_create.go`.  It binds `name` in the instance-local store. -/
def Scope.InstanceSet (s : Scope) (name : String) (v : List String) : Scope :=
  { s with instanceValues := (name, v) :: s.instanceValues.filter (fun kv => kv.1 != name) }

/-- Modelled from the spec: `scope.InstanceGet` is not part of
`callback_create.go`.  It reads `name` from the instance-local store. -/
def Scope.InstanceGet (s : Scope) (name : String) : Option (List String) :=
  (s.instanceValues.find? (fun kv => kv.1 == name)).map Prod.snd

/-- The lookup `scope.Get(name)`, which is not part of `callback_create.go`: the
settings it reads are the `settings` of the scope, each held as the string that
`fmt.Sprint` makes of it. -/
def Scope.Get (s : Scope) (name : String) : Option String :=
  (s.settings.find? (fun kv => kv.1 == name)).map Prod.snd

/-- Modelled from the spec: `scope.Raw` is not part of `callback_create.go`.
It stores the generated SQL text. -/
def Scope.Raw (s : Scope) (sql : String) : Scope :=
  { s with SQL := sql }

/-- Modelled from the spec: `addExtraSpaceIfExist` is not part of
`callback_create.go`.  An empty string stays empty, any other is preceded by
one space. -/
def addExtraSpaceIfExist (str : String) : String :=
  if str != "" then " " ++ str else ""

/-- Go: `beforeCreateCallback`. -/
def beforeCreateCallback (env : Env) (scope : Scope) : Scope :=
  let scope := if !scope.HasError then scope.CallMethod env "BeforeSave" else scope
  if !scope.HasError then scope.CallMethod env "BeforeCreate" else scope

/-- Go: `afterCreateCallback`. -/
def afterCreateCallback (env : Env) (scope : Scope) : Scope :=
  let scope := if !scope.HasError then scope.CallMethod env "AfterCreate" else scope
  if !scope.HasError then scope.CallMethod env "AfterSave" else scope

/-- The two `if field, ok := scope.FieldByName(name); ok { if field.IsBlank {
field.Set(now) } }` blocks of `updateTimeStampForCreateCallback`; the `error`
that `Set` returns is dropped, as in the source. -/
def setIfBlank (env : Env) (scope : Scope) (name : String) (now : Value) : Scope :=
  match scope.FieldByName env name with
  | some (i, field) => if field.IsBlank then (scope.setField i field now).1 else scope
  | none => scope

/-- Go: `updateTimeStampForCreateCallback`. -/
def updateTimeStampForCreateCallback (env : Env) (scope : Scope) : Scope :=
  if !scope.HasError then
    let now := env.nowFunc scope.clock
    let scope := { scope with clock := scope.clock + 1 }
    let scope := setIfBlank env scope "CreatedAt" now
    setIfBlank env scope "UpdatedAt" now
  else scope

/-- The local variables `columns`, `placeholders` and
`blankColumnsWithDefaultValue` of `createCallback`. -/
structure Insert where
  columns : List String
  placeholders : List String
  blankColumnsWithDefaultValue : List String
  deriving DecidableEq, Repr

/-- The body of the inner loop of `createCallback` over the foreign keys of a
belongs_to relationship. -/
def addForeignKey (env : Env) (st : Scope × Insert) (foreignKey : String) : Scope × Insert :=
  match st.1.FieldByName env foreignKey with
  | some (_, foreignField) =>
    if !env.changeableField foreignField then
      ((st.1.AddToVars env foreignField.value).1,
        { st.2 with
          columns := st.2.columns ++ [env.Quote foreignField.DBName],
          placeholders := st.2.placeholders ++ [(st.1.AddToVars env foreignField.value).2] })
    else st
  | none => st

/-- The body of the loop of `createCallback` over `scope.Fields()`. -/
def addField (env : Env) (st : Scope × Insert) (field : Field) : Scope × Insert :=
  if env.changeableField field then
    if field.IsNormal && !field.IsIgnored then
      if field.IsBlank && field.HasDefaultValue then
        (st.1.InstanceSet "gorm:blank_columns_with_default_value"
            (st.2.blankColumnsWithDefaultValue ++ [env.Quote field.DBName]),
          { st.2 with
            blankColumnsWithDefaultValue :=
              st.2.blankColumnsWithDefaultValue ++ [env.Quote field.DBName] })
      else if !field.IsPrimaryKey || !field.IsBlank then
        ((st.1.AddToVars env field.value).1,
          { st.2 with
            columns := st.2.columns ++ [env.Quote field.DBName],
            placeholders := st.2.placeholders ++ [(st.1.AddToVars env field.value).2] })
      else st
    else
      match field.Relationship with
      | some relationship =>
        if relationship.Kind == "belongs_to" then
          relationship.ForeignDBNames.foldl (addForeignKey env) st
        else st
      | none => st
  else st

/-- The loop of `createCallback` (lines 74 to 93): the scope after it, and the
column, placeholder and blank-column lists it built. -/
def insertColumns (env : Env) (scope : Scope) : Scope × Insert :=
  scope.fields.foldl (addField env) (scope, { columns := [], placeholders := [], blankColumnsWithDefaultValue := [] })

/-- The local `extraOption` of `createCallback`. -/
def extraOption (scope : Scope) : String :=
  match scope.Get "gorm:insert_option" with
  | some str => str
  | none => ""

/-- The local `insertModifier` of `createCallback`: the setting in upper case,
and empty when that is `INTO`. -/
def insertModifier (env : Env) (scope : Scope) : String :=
  match scope.Get "gorm:insert_modifier" with
  | some str => if env.ToUpper str == "INTO" then "" else env.ToUpper str
  | none => ""

/-- The local `returningColumn` of `createCallback`. -/
def returningColumn (env : Env) (scope : Scope) : String :=
  match scope.PrimaryField env with
  | some (_, primaryField) => env.Quote primaryField.DBName
  | none => "*"

/-- The local `lastInsertIDReturningSuffix` of `createCallback`. -/
def lastInsertIDReturningSuffix (env : Env) (scope : Scope) : String :=
  env.LastInsertIDReturningSuffix env.QuotedTableName (returningColumn env scope)

/-- The local `lastInsertIDOutputInterstitial` of `createCallback`. -/
def lastInsertIDOutputInterstitial (env : Env) (scope : Scope) (columns : List String) : String :=
  env.LastInsertIDOutputInterstitial env.QuotedTableName (returningColumn env scope) columns

/-- The text handed to `scope.Raw` by `createCallback` (lines 120 to 140). -/
def insertSQL (env : Env) (scope : Scope) (columns placeholders : List String) : String :=
  if columns.length == 0 then
    "INSERT" ++ addExtraSpaceIfExist (insertModifier env scope) ++ " INTO " ++ env.QuotedTableName
      ++ " " ++ env.DefaultValueStr
      ++ addExtraSpaceIfExist (extraOption scope)
      ++ addExtraSpaceIfExist (lastInsertIDReturningSuffix env scope)
  else
    "INSERT" ++ addExtraSpaceIfExist (insertModifier env scope) ++ " INTO " ++ env.QuotedTableName
      ++ " (" ++ ",".intercalate columns ++ ")"
      ++ addExtraSpaceIfExist (lastInsertIDOutputInterstitial env scope columns)
      ++ " VALUES (" ++ ",".intercalate placeholders ++ ")"
      ++ addExtraSpaceIfExist (extraOption scope)
      ++ addExtraSpaceIfExist (lastInsertIDReturningSuffix env scope)

/-- The call `scope.SQLDB().Exec(scope.SQL, scope.SQLVars...)` as an event. -/
def Scope.logExec (scope : Scope) : Scope :=
  { scope with log := scope.log ++ [Event.exec scope.SQL scope.SQLVars] }

/-- The execution part of `createCallback` (lines 142 to 184), run on the scope
that holds the generated SQL; `columns` is the column list of the loop.
Without a primary field the inner test `primaryField != nil && ...` of lines
150 to 154 is never true, so that branch only records rows-affected. -/
def executeInsert (env : Env) (scope : Scope) (columns : List String) : Scope :=
  match scope.PrimaryField env with
  | none =>
    match env.Exec scope.SQL scope.SQLVars with
    | .ok result => { scope.logExec with RowsAffected := result.RowsAffected }
    | .error err => scope.logExec.Err (some err)
  | some (i, primaryField) =>
    if lastInsertIDReturningSuffix env scope == ""
        && lastInsertIDOutputInterstitial env scope columns == "" then
      match env.Exec scope.SQL scope.SQLVars with
      | .ok result =>
        if primaryField.IsBlank then
          match result.LastInsertId with
          | .ok primaryValue =>
            Scope.Err
              (Scope.setField { scope.logExec with RowsAffected := result.RowsAffected }
                i primaryField (Value.int primaryValue)).1
              (Scope.setField { scope.logExec with RowsAffected := result.RowsAffected }
                i primaryField (Value.int primaryValue)).2
          | .error err =>
            Scope.Err { scope.logExec with RowsAffected := result.RowsAffected } (some err)
        else { scope.logExec with RowsAffected := result.RowsAffected }
      | .error err => scope.logExec.Err (some err)
    else if primaryField.CanAddr then
      match env.QueryRow scope.SQL scope.SQLVars with
      | .ok v =>
        { scope with
          fields := scope.fields.set i { primaryField with value := v, IsBlank := false },
          RowsAffected := 1,
          log := scope.log ++ [Event.queryRow scope.SQL scope.SQLVars, Event.scan i v] }
      | .error err =>
        Scope.Err
          { scope with log := scope.log ++ [Event.queryRow scope.SQL scope.SQLVars] }
          (some err)
    else scope.Err (some ErrUnaddressable)

/-- The loop of `createCallback` as the callback runs it: the deferred
`scope.trace(scope.db.nowFunc())` has taken one reading of the clock before. -/
def createLoop (env : Env) (scope : Scope) : Scope × Insert :=
  insertColumns env { scope with clock := scope.clock + 1 }

/-- The scope of `createCallback` after `scope.Raw(...)`: it holds the SQL text
and the bound parameters that are then executed. -/
def prepareInsert (env : Env) (scope : Scope) : Scope :=
  (createLoop env scope).1.Raw
    (insertSQL env (createLoop env scope).1 (createLoop env scope).2.columns
      (createLoop env scope).2.placeholders)

/-- Go: `createCallback`. -/
def createCallback (env : Env) (scope : Scope) : Scope :=
  if !scope.HasError then
    executeInsert env (prepareInsert env scope) (createLoop env scope).2.columns
  else scope

/-- The `Where` conditions the reload step adds, one per non-blank primary key. -/
def reloadConditions (scope : Scope) : List (String × Value) :=
  scope.fields.filterMap fun field =>
    if field.IsPrimaryKey && !field.IsBlank then some (field.DBName ++ " = ?", field.value)
    else none

/-- Modelled from the spec: the read
`scope.DB().New().Table(table).Select(columns).Where(...).Scan(scope.Value)` is
not part of `callback_create.go`.  It is built from the `*DB` of the scope,
which carries the error of the scope: once the error is set the read executes
no SQL and leaves the entity alone; without an error the read is issued and its
result copied onto the entity.  An error of the read itself stays on the `*DB`
the read returns, which the step drops. -/
def Scope.Scan (env : Env) (scope : Scope) (table : String) (columns : List String)
    (conds : List (String × Value)) : Scope :=
  if scope.HasError then scope
  else
    { scope with
      fields := env.find table columns conds scope.fields,
      log := scope.log ++ [Event.find table columns conds] }

/-- Go: `forceReloadAfterCreateCallback`. -/
def forceReloadAfterCreateCallback (env : Env) (scope : Scope) : Scope :=
  match scope.InstanceGet "gorm:blank_columns_with_default_value" with
  | some blankColumnsWithDefaultValue =>
    scope.Scan env env.TableName blankColumnsWithDefaultValue (reloadConditions scope)
  | none => scope

/-- The callbacks a create chain can hold, by the name of the Go function. -/
inductive Step where
  | beginTransactionCallback
  | beforeCreateCallback
  | saveBeforeAssociationsCallback
  | updateTimeStampForCreateCallback
  | createCallback
  | forceReloadAfterCreateCallback
  | saveAfterAssociationsCallback
  | afterCreateCallback
  | commitOrRollbackTransactionCallback
  deriving DecidableEq, Repr

/-- Modelled from the spec: `Register` of the callback registry is not part of
`callback_create.go`.  In the words of the spec, `register(name, step)`
appends. -/
def Register (creates : List (String × Step)) (name : String) (callback : Step) :
    List (String × Step) :=
  creates ++ [(name, callback)]

/-- Modelled from the spec: `DefaultCallback` is declared outside
`callback_create.go`; its create chain is empty before `init` runs. -/
def DefaultCallback : List (String × Step) := []

/-- Go: `init`, the nine registrations in call order. -/
def init (creates : List (String × Step)) : List (String × Step) :=
  let creates := Register creates "gorm:begin_transaction" Step.beginTransactionCallback
  let creates := Register creates "gorm:before_create" Step.beforeCreateCallback
  let creates := Register creates "gorm:save_before_associations" Step.saveBeforeAssociationsCallback
  let creates := Register creates "gorm:update_time_stamp" Step.updateTimeStampForCreateCallback
  let creates := Register creates "gorm:create" Step.createCallback
  let creates := Register creates "gorm:force_reload_after_create" Step.forceReloadAfterCreateCallback
  let creates := Register creates "gorm:save_after_associations" Step.saveAfterAssociationsCallback
  let creates := Register creates "gorm:after_create" Step.afterCreateCallback
  Register creates "gorm:commit_or_rollback_transaction" Step.commitOrRollbackTransactionCallback

/-! ## The column selection in the words of the specification -/

/-- The first rule of the column selection applies to `field`: it is a plain
column and not ignored. -/
def Field.isPlain (field : Field) : Bool :=
  field.IsNormal && !field.IsIgnored

/-- From the wording of the specification: the foreign fields a belongs_to
relationship brings into the insert, namely for each foreign key, in order, the
field of that name when it exists and is not changeable. -/
def foreignSources (env : Env) (scope : Scope) (foreignDBNames : List String) : List Field :=
  foreignDBNames.filterMap fun foreignKey =>
    match scope.FieldByName env foreignKey with
    | some (_, foreignField) => if env.changeableField foreignField then none else some foreignField
    | none => none

/-- From the wording of the specification: the fields behind the columns that
one field of the snapshot contributes to the insert.  A changeable plain field
contributes nothing when it is blank with a default value or a blank primary
key, and itself otherwise; a changeable field that is not plain and has a
belongs_to relationship contributes the foreign fields; every other field
contributes nothing. -/
def columnSources (env : Env) (scope : Scope) (field : Field) : List Field :=
  if env.changeableField field then
    if field.isPlain then
      if field.IsBlank && field.HasDefaultValue then []
      else if field.IsPrimaryKey && field.IsBlank then []
      else [field]
    else
      match field.Relationship with
      | some relationship =>
        if relationship.Kind == "belongs_to" then
          foreignSources env scope relationship.ForeignDBNames
        else []
      | none => []
  else []

/-- From the wording of the specification: a changeable, plain, non-ignored
field that is blank and has a default value. -/
def blankWithDefault (env : Env) (field : Field) : Bool :=
  env.changeableField field && field.isPlain && field.IsBlank && field.HasDefaultValue

/-- From the wording of the specification: a clause of the insert is empty when
empty and preceded by one space otherwise. -/
def spaced (str : String) : String :=
  if str = "" then "" else " " ++ str

/-- The placeholders of `n` parameters bound after `k` earlier ones. -/
def bindVars (env : Env) (k n : Nat) : List String :=
  (List.range n).map fun i => env.BindVar (k + i + 1)

/-- An event that writes the field at position `i` of the snapshot. -/
def Event.writes (i : Nat) : Event → Bool
  | .set j _ => j == i
  | .scan j _ => j == i
  | _ => false

/-- An event that executes SQL: `Exec`, `QueryRow` or the read of the reload
step. -/
def Event.isSQL : Event → Bool
  | .exec _ _ => true
  | .queryRow _ _ => true
  | .find _ _ _ => true
  | _ => false

/-- The state the column loop keeps about the columns: the snapshot is
untouched, and columns, bound parameters and placeholders follow `src`, the
fields behind the columns so far. -/
def LoopInv (env : Env) (scope : Scope) (src : List Field) (st : Scope × Insert) : Prop :=
  st.1.fields = scope.fields ∧
  st.2.columns = src.map (fun f => env.Quote f.DBName) ∧
  st.1.SQLVars = scope.SQLVars ++ src.map (fun f => f.value) ∧
  st.2.placeholders = bindVars env scope.SQLVars.length src.length

/-- What the column loop leaves alone: everything on the scope but the bound
parameters and the instance-local store. -/
def LoopFrame (scope : Scope) (st : Scope × Insert) : Prop :=
  st.1.fields = scope.fields ∧ st.1.Error = scope.Error ∧ st.1.SQL = scope.SQL ∧
  st.1.RowsAffected = scope.RowsAffected ∧ st.1.settings = scope.settings ∧
  st.1.clock = scope.clock ∧ st.1.log = scope.log

/-- The state the column loop keeps about the blank columns with a default
value: the local list follows `pre`, the fields consumed so far, and the store
holds the list as soon as it is non-empty. -/
def BlankInv (env : Env) (scope : Scope) (pre : List Field) (st : Scope × Insert) : Prop :=
  st.2.blankColumnsWithDefaultValue
      = (pre.filter (blankWithDefault env)).map (fun f => env.Quote f.DBName) ∧
  st.1.InstanceGet "gorm:blank_columns_with_default_value"
      = if st.2.blankColumnsWithDefaultValue = [] then
          scope.InstanceGet "gorm:blank_columns_with_default_value"
        else some st.2.blankColumnsWithDefaultValue

/-- The dialect has no returning clause for this insert (second strategy). -/
def usesLastInsertID (env : Env) (scope : Scope) (columns : List String) : Bool :=
  lastInsertIDReturningSuffix env scope == ""
    && lastInsertIDOutputInterstitial env scope columns == ""

/-- From the wording of the specification: what a hook step makes of a scope.
An erred scope is left alone.  Otherwise the hook `first` is applied to the
entity; an error it returns goes onto the scope and ends the step; without one
the hook `second` is applied to the entity that `first` left and its error, if
any, goes onto the scope. -/
def hooksResult (env : Env) (scope : Scope) (first second : String) : Scope :=
  match scope.Error with
  | some _ => scope
  | none =>
    match (env.method first scope.fields).2 with
    | some err =>
      { scope with
        fields := (env.method first scope.fields).1,
        Error := some err,
        log := scope.log ++ [Event.callMethod first] }
    | none =>
      { scope with
        fields := (env.method second (env.method first scope.fields).1).1,
        Error := (env.method second (env.method first scope.fields).1).2,
        log := scope.log ++ [Event.callMethod first, Event.callMethod second] }

/-- The events of the two gated hook calls of a hook step: nothing on a scope
with an error, else the first hook, followed by the second unless the first
returned an error. -/
def hookEvents (env : Env) (scope : Scope) (first second : String) : List Event :=
  if scope.HasError then []
  else
    Event.callMethod first ::
      (if (env.method first scope.fields).2.isSome then [] else [Event.callMethod second])

/-! ## Sample data -/

/-- A plain, blank, addressable field without default value, primary key flag
or relationship, holding `v`. -/
def sampleField (name dbName : String) (v : Value) : Field where
  Name := name
  DBName := dbName
  IsPrimaryKey := false
  IsNormal := true
  IsIgnored := false
  HasDefaultValue := false
  Relationship := none
  IsBlank := v.isZero
  CanAddr := true
  value := v

/-- The entity `{ID: 0, Name: "a", Status: "", CreatedAt: zero}` where `ID` is
the primary key and `Status` has a database default. -/
def sampleFields : List Field :=
  [ { sampleField "ID" "id" (Value.int 0) with IsPrimaryKey := true },
    sampleField "Name" "name" (Value.str "a"),
    { sampleField "Status" "status" (Value.str "") with HasDefaultValue := true },
    sampleField "CreatedAt" "created_at" (Value.time 0) ]

/-- A fresh scope over `fields`: no error, nothing generated, empty stores. -/
def freshScope (fields : List Field) : Scope where
  fields := fields
  Error := none
  SQL := ""
  SQLVars := []
  RowsAffected := 0
  settings := []
  instanceValues := []
  clock := 0
  log := []

/-- An environment whose dialect has no returning clause and whose driver
reports one affected row and the last insert id `lastID`. -/
def sampleEnv (lastID : Except Err Int) : Env where
  nowFunc := fun n => Value.time (100 + n)
  Quote := fun name => name
  BindVar := fun _ => "?"
  ToUpper := fun str => String.mk (str.data.map Char.toUpper)
  DefaultValueStr := "DEFAULT VALUES"
  LastInsertIDReturningSuffix := fun _ _ => ""
  LastInsertIDOutputInterstitial := fun _ _ _ => ""
  TableName := "users"
  QuotedTableName := "users"
  changeableField := fun _ => true
  fieldByName := fun fs name => fs.findIdx? fun f => f.Name == name || f.DBName == name
  primaryField := fun fs => fs.findIdx? fun f => f.IsPrimaryKey
  Exec := fun _ _ => .ok { RowsAffected := 1, LastInsertId := lastID }
  QueryRow := fun _ _ => .ok (Value.int 7)
  method := fun _ fs => (fs, none)
  find := fun _ _ _ fs => fs

/-- An environment like `sampleEnv` whose hook `BeforeSave` returns an error. -/
def rejectingEnv : Env :=
  { sampleEnv (.ok 7) with
    method := fun name fs => if name == "BeforeSave" then (fs, some "rejected") else (fs, none) }

/-- An environment like `sampleEnv` whose dialect asks for the generated key
with a returning suffix; the row returned holds the key 7. -/
def returningEnv : Env :=
  { sampleEnv (.ok 7) with
    LastInsertIDReturningSuffix := fun _ column => "RETURNING " ++ column }

/-- An environment like `sampleEnv` whose driver fails every `Exec`, and whose
read copies the first row it finds onto the entity. -/
def failingEnv : Env :=
  { sampleEnv (.ok 7) with
    Exec := fun _ _ => .error "insert failed"
    find := fun _ _ _ fs => fs.map fun f => (f.Set (Value.str "row of another entity")).1 }

/-- The entity `{ID: 5, Name: "a"}` whose primary key `ID` is already set. -/
def keyedFields : List Field :=
  [ { sampleField "ID" "id" (Value.int 5) with IsPrimaryKey := true },
    sampleField "Name" "name" (Value.str "a") ]

/-- A fresh scope over `sampleFields` with the settings `gorm:insert_modifier`
and `gorm:insert_option`. -/
def modifiedScope : Scope :=
  { freshScope sampleFields with
    settings := [("gorm:insert_modifier", "ignore"),
      ("gorm:insert_option", "ON DUPLICATE KEY UPDATE name = name")] }

/-- The entity of `sampleFields` handed over by value: none of its fields is
addressable. -/
def unaddressableFields : List Field :=
  sampleFields.map fun f => { f with CanAddr := false }

/-- The events `createCallback` appends to the log. -/
def createEvents (env : Env) (scope : Scope) : List Event :=
  (createCallback env scope).log.drop scope.log.length

/-! ## Theorems -/

/-- A fold keeps a relation between the elements consumed and the state. -/
theorem foldl_rel {α β : Type} (f : β → α → β) (R : List α → β → Prop)
    (step : ∀ pre a b, R pre b → R (pre ++ [a]) (f b a)) :
    ∀ (l pre : List α) (b : β), R pre b → R (pre ++ l) (l.foldl f b) := by
  intro l
  induction l with
  | nil => intro pre b h; simpa using h
  | cons a l ih =>
    intro pre b h
    have h1 := ih (pre ++ [a]) (f b a) (step pre a b h)
    simpa using h1

theorem bindVars_succ (env : Env) (k n : Nat) :
    bindVars env k (n + 1) = bindVars env k n ++ [env.BindVar (k + n + 1)] := by
  simp [bindVars, List.range_succ]

theorem FieldByName_congr (env : Env) (s t : Scope) (name : String)
    (h : s.fields = t.fields) : s.FieldByName env name = t.FieldByName env name := by
  simp [Scope.FieldByName, h]

theorem foreignSources_single (env : Env) (scope : Scope) (fk : String) :
    foreignSources env scope [fk] =
      match scope.FieldByName env fk with
      | some (_, ff) => if env.changeableField ff then [] else [ff]
      | none => [] := by
  unfold foreignSources
  cases h : scope.FieldByName env fk with
  | none => simp [List.filterMap_cons, h]
  | some p =>
    obtain ⟨i, ff⟩ := p
    by_cases hch : env.changeableField ff = true <;> simp [List.filterMap_cons, h, hch]

theorem foreignSources_append (env : Env) (scope : Scope) (l₁ l₂ : List String) :
    foreignSources env scope (l₁ ++ l₂) =
      foreignSources env scope l₁ ++ foreignSources env scope l₂ := by
  simp [foreignSources, List.filterMap_append]

theorem addForeignKey_inv (env : Env) (scope : Scope) (src : List Field) (st : Scope × Insert)
    (fk : String) (h : LoopInv env scope src st) :
    LoopInv env scope (src ++ foreignSources env scope [fk]) (addForeignKey env st fk) := by
  obtain ⟨hf, hc, hv, hp⟩ := h
  have hl : st.1.FieldByName env fk = scope.FieldByName env fk := FieldByName_congr env _ _ _ hf
  rw [foreignSources_single]
  unfold addForeignKey
  rw [hl]
  cases hfb : scope.FieldByName env fk with
  | none => simp [LoopInv, hf, hc, hv, hp]
  | some p =>
    obtain ⟨i, ff⟩ := p
    by_cases hch : env.changeableField ff = true
    · simp [LoopInv, hch, hf, hc, hv, hp]
    · simp only [Bool.not_eq_true] at hch
      simp [LoopInv, hch, hf, hc, hv, hp, Scope.AddToVars, bindVars_succ, Nat.add_assoc]

theorem foreignKeys_inv (env : Env) (scope : Scope) (fks : List String) (src : List Field)
    (st : Scope × Insert) (h : LoopInv env scope src st) :
    LoopInv env scope (src ++ foreignSources env scope fks) (fks.foldl (addForeignKey env) st) := by
  have key := foldl_rel (addForeignKey env)
    (fun pre b => LoopInv env scope (src ++ foreignSources env scope pre) b)
    (by
      intro pre a b hb
      have := addForeignKey_inv env scope _ b a hb
      simpa [foreignSources_append, List.append_assoc] using this)
    fks [] st (by simpa [foreignSources] using h)
  simpa using key

theorem addField_inv (env : Env) (scope : Scope) (src : List Field) (st : Scope × Insert)
    (field : Field) (h : LoopInv env scope src st) :
    LoopInv env scope (src ++ columnSources env scope field) (addField env st field) := by
  unfold addField columnSources Field.isPlain
  by_cases hch : env.changeableField field = true
  · simp only [hch, if_true]
    by_cases hpl : (field.IsNormal && !field.IsIgnored) = true
    · simp only [hpl, if_true]
      by_cases hbd : (field.IsBlank && field.HasDefaultValue) = true
      · simp only [hbd, if_true]
        obtain ⟨hf, hc, hv, hp⟩ := h
        simp [LoopInv, hf, hc, hv, hp, Scope.InstanceSet]
      · simp only [hbd, Bool.false_eq_true, ↓reduceIte]
        by_cases hpk : (field.IsPrimaryKey && field.IsBlank) = true
        · obtain ⟨hf, hc, hv, hp⟩ := h
          have : (!field.IsPrimaryKey || !field.IsBlank) = false := by
            simp only [Bool.and_eq_true] at hpk
            simp [hpk.1, hpk.2]
          simp [LoopInv, hf, hc, hv, hp, hpk, this]
        · obtain ⟨hf, hc, hv, hp⟩ := h
          have : (!field.IsPrimaryKey || !field.IsBlank) = true := by
            cases h1 : field.IsPrimaryKey <;> cases h2 : field.IsBlank <;> simp_all
          simp [LoopInv, hf, hc, hv, hp, hpk, this, Scope.AddToVars, bindVars_succ,
            Nat.add_assoc]
    · simp only [hpl, Bool.false_eq_true, ↓reduceIte]
      cases hr : field.Relationship with
      | none => simpa using h
      | some r =>
        by_cases hk : (r.Kind == "belongs_to") = true
        · simp only [hk, if_true]
          exact foreignKeys_inv env scope _ src st h
        · simp only [hk, Bool.false_eq_true, ↓reduceIte]
          simpa using h
  · simp only [hch, Bool.false_eq_true, ↓reduceIte]
    simpa using h

theorem addForeignKey_frame (env : Env) (st : Scope × Insert) (fk : String) :
    (addForeignKey env st fk).1.fields = st.1.fields ∧
    (addForeignKey env st fk).1.Error = st.1.Error ∧
    (addForeignKey env st fk).1.SQL = st.1.SQL ∧
    (addForeignKey env st fk).1.RowsAffected = st.1.RowsAffected ∧
    (addForeignKey env st fk).1.settings = st.1.settings ∧
    (addForeignKey env st fk).1.clock = st.1.clock ∧
    (addForeignKey env st fk).1.log = st.1.log ∧
    (addForeignKey env st fk).1.instanceValues = st.1.instanceValues ∧
    (addForeignKey env st fk).2.blankColumnsWithDefaultValue
      = st.2.blankColumnsWithDefaultValue := by
  unfold addForeignKey
  cases st.1.FieldByName env fk with
  | none => simp
  | some p =>
    obtain ⟨i, ff⟩ := p
    by_cases hch : env.changeableField ff = true <;> simp [hch, Scope.AddToVars]

theorem foreignKeys_frame (env : Env) (fks : List String) (st : Scope × Insert) :
    (fks.foldl (addForeignKey env) st).1.fields = st.1.fields ∧
    (fks.foldl (addForeignKey env) st).1.Error = st.1.Error ∧
    (fks.foldl (addForeignKey env) st).1.SQL = st.1.SQL ∧
    (fks.foldl (addForeignKey env) st).1.RowsAffected = st.1.RowsAffected ∧
    (fks.foldl (addForeignKey env) st).1.settings = st.1.settings ∧
    (fks.foldl (addForeignKey env) st).1.clock = st.1.clock ∧
    (fks.foldl (addForeignKey env) st).1.log = st.1.log ∧
    (fks.foldl (addForeignKey env) st).1.instanceValues = st.1.instanceValues ∧
    (fks.foldl (addForeignKey env) st).2.blankColumnsWithDefaultValue
      = st.2.blankColumnsWithDefaultValue := by
  induction fks generalizing st with
  | nil => simp
  | cons fk fks ih =>
    have h1 := addForeignKey_frame env st fk
    have h2 := ih (addForeignKey env st fk)
    simp only [List.foldl_cons]
    obtain ⟨a1, a2, a3, a4, a5, a6, a7, a8, a9⟩ := h1
    obtain ⟨b1, b2, b3, b4, b5, b6, b7, b8, b9⟩ := h2
    exact ⟨b1.trans a1, b2.trans a2, b3.trans a3, b4.trans a4, b5.trans a5, b6.trans a6,
      b7.trans a7, b8.trans a8, b9.trans a9⟩

theorem addField_frame (env : Env) (scope : Scope) (st : Scope × Insert) (field : Field)
    (h : LoopFrame scope st) : LoopFrame scope (addField env st field) := by
  obtain ⟨h1, h2, h3, h4, h5, h6, h7⟩ := h
  unfold addField
  by_cases hch : env.changeableField field = true
  · simp only [hch, if_true]
    by_cases hpl : (field.IsNormal && !field.IsIgnored) = true
    · simp only [hpl, if_true]
      by_cases hbd : (field.IsBlank && field.HasDefaultValue) = true
      · simp only [hbd, if_true]
        exact ⟨h1, h2, h3, h4, h5, h6, h7⟩
      · simp only [hbd, Bool.false_eq_true, ↓reduceIte]
        by_cases hpk : (!field.IsPrimaryKey || !field.IsBlank) = true
        · simp only [hpk, if_true]
          exact ⟨h1, h2, h3, h4, h5, h6, h7⟩
        · simp only [hpk, Bool.false_eq_true, ↓reduceIte]
          exact ⟨h1, h2, h3, h4, h5, h6, h7⟩
    · simp only [hpl, Bool.false_eq_true, ↓reduceIte]
      cases hr : field.Relationship with
      | none => exact ⟨h1, h2, h3, h4, h5, h6, h7⟩
      | some r =>
        by_cases hk : (r.Kind == "belongs_to") = true
        · simp only [hk, if_true]
          obtain ⟨b1, b2, b3, b4, b5, b6, b7, _, _⟩ := foreignKeys_frame env r.ForeignDBNames st
          exact ⟨b1.trans h1, b2.trans h2, b3.trans h3, b4.trans h4, b5.trans h5, b6.trans h6,
            b7.trans h7⟩
        · simp only [hk, Bool.false_eq_true, ↓reduceIte]
          exact ⟨h1, h2, h3, h4, h5, h6, h7⟩
  · simp only [hch, Bool.false_eq_true, ↓reduceIte]
    exact ⟨h1, h2, h3, h4, h5, h6, h7⟩

theorem InstanceGet_InstanceSet (s : Scope) (name : String) (v : List String) :
    (s.InstanceSet name v).InstanceGet name = some v := by
  simp [Scope.InstanceSet, Scope.InstanceGet]

theorem InstanceGet_congr (s t : Scope) (name : String)
    (h : s.instanceValues = t.instanceValues) : s.InstanceGet name = t.InstanceGet name := by
  simp [Scope.InstanceGet, h]

theorem addField_blank (env : Env) (scope : Scope) (pre : List Field) (st : Scope × Insert)
    (field : Field) (h : BlankInv env scope pre st) :
    BlankInv env scope (pre ++ [field]) (addField env st field) := by
  obtain ⟨hb, hi⟩ := h
  unfold addField
  by_cases hch : env.changeableField field = true
  · simp only [hch, if_true]
    by_cases hpl : (field.IsNormal && !field.IsIgnored) = true
    · simp only [hpl, if_true]
      by_cases hbd : (field.IsBlank && field.HasDefaultValue) = true
      · simp only [hbd, if_true]
        have hbw : blankWithDefault env field = true := by
          simp only [Bool.and_eq_true] at hbd
          simp [blankWithDefault, Field.isPlain, hch, hpl, hbd.1, hbd.2]
        refine ⟨?_, ?_⟩
        · simp [hb, List.filter_append, hbw]
        · rw [InstanceGet_InstanceSet]
          simp
      · simp only [hbd, Bool.false_eq_true, ↓reduceIte]
        have hbw : blankWithDefault env field = false := by
          have : ¬ (field.IsBlank = true ∧ field.HasDefaultValue = true) := by
            simpa [Bool.and_eq_true] using hbd
          cases h1 : field.IsBlank <;> cases h2 : field.HasDefaultValue <;>
            simp_all [blankWithDefault]
        by_cases hpk : (!field.IsPrimaryKey || !field.IsBlank) = true
        · simp only [hpk, if_true]
          refine ⟨?_, ?_⟩
          · simp [hb, List.filter_append, hbw]
          · rw [InstanceGet_congr (st.1.AddToVars env field.value).1 st.1 _ rfl]
            exact hi
        · simp only [hpk, Bool.false_eq_true, ↓reduceIte]
          refine ⟨?_, hi⟩
          simp [hb, List.filter_append, hbw]
    · simp only [hpl, Bool.false_eq_true, ↓reduceIte]
      have hbw : blankWithDefault env field = false := by
        simp only [Bool.not_eq_true] at hpl
        simp [blankWithDefault, Field.isPlain, hpl]
      cases hr : field.Relationship with
      | none =>
        refine ⟨?_, hi⟩
        simp [hb, List.filter_append, hbw]
      | some r =>
        by_cases hk : (r.Kind == "belongs_to") = true
        · simp only [hk, if_true]
          obtain ⟨_, _, _, _, _, _, _, b8, b9⟩ := foreignKeys_frame env r.ForeignDBNames st
          refine ⟨?_, ?_⟩
          · rw [b9]
            simp [hb, List.filter_append, hbw]
          · rw [b9, InstanceGet_congr _ st.1 _ b8]
            exact hi
        · simp only [hk, Bool.false_eq_true, ↓reduceIte]
          refine ⟨?_, hi⟩
          simp [hb, List.filter_append, hbw]
  · simp only [hch, Bool.false_eq_true, ↓reduceIte]
    have hbw : blankWithDefault env field = false := by
      simp only [Bool.not_eq_true] at hch
      simp [blankWithDefault, hch]
    refine ⟨?_, hi⟩
    simp [hb, List.filter_append, hbw]

theorem columnSources_congr (env : Env) (s t : Scope) (h : s.fields = t.fields) :
    columnSources env s = columnSources env t := by
  funext field
  have hf : foreignSources env s = foreignSources env t := by
    funext l
    simp [foreignSources, FieldByName_congr env s t _ h]
  simp [columnSources, hf]

theorem insertColumns_inv (env : Env) (scope : Scope) :
    LoopInv env scope (scope.fields.flatMap (columnSources env scope)) (insertColumns env scope) := by
  have key := foldl_rel (addField env)
    (fun pre st => LoopInv env scope (pre.flatMap (columnSources env scope)) st)
    (by
      intro pre a b hb
      have := addField_inv env scope _ b a hb
      simpa [List.flatMap_append] using this)
    scope.fields [] (scope, { columns := [], placeholders := [], blankColumnsWithDefaultValue := [] })
    (by simp [LoopInv, bindVars])
  simpa [insertColumns] using key

theorem insertColumns_frame (env : Env) (scope : Scope) :
    LoopFrame scope (insertColumns env scope) := by
  have key := foldl_rel (addField env) (fun _ st => LoopFrame scope st)
    (fun _ a b hb => addField_frame env scope b a hb)
    scope.fields [] (scope, { columns := [], placeholders := [], blankColumnsWithDefaultValue := [] })
    (by simp [LoopFrame])
  simpa [insertColumns] using key

theorem insertColumns_blank (env : Env) (scope : Scope) :
    BlankInv env scope scope.fields (insertColumns env scope) := by
  have key := foldl_rel (addField env) (fun pre st => BlankInv env scope pre st)
    (fun pre a b hb => addField_blank env scope pre b a hb)
    scope.fields [] (scope, { columns := [], placeholders := [], blankColumnsWithDefaultValue := [] })
    (by simp [BlankInv])
  simpa [insertColumns] using key

theorem createLoop_inv (env : Env) (scope : Scope) :
    LoopInv env scope (scope.fields.flatMap (columnSources env scope)) (createLoop env scope) := by
  have h := insertColumns_inv env { scope with clock := scope.clock + 1 }
  rw [columnSources_congr env { scope with clock := scope.clock + 1 } scope rfl] at h
  exact h

theorem createLoop_frame (env : Env) (scope : Scope) :
    (createLoop env scope).1.fields = scope.fields ∧
    (createLoop env scope).1.Error = scope.Error ∧
    (createLoop env scope).1.SQL = scope.SQL ∧
    (createLoop env scope).1.RowsAffected = scope.RowsAffected ∧
    (createLoop env scope).1.settings = scope.settings ∧
    (createLoop env scope).1.clock = scope.clock + 1 ∧
    (createLoop env scope).1.log = scope.log :=
  insertColumns_frame env { scope with clock := scope.clock + 1 }

theorem createLoop_blank (env : Env) (scope : Scope) :
    BlankInv env scope scope.fields (createLoop env scope) := by
  have h := insertColumns_blank env { scope with clock := scope.clock + 1 }
  exact h

theorem executeInsert_none_ok (env : Env) (scope : Scope) (columns : List String)
    (result : Result) (hp : scope.PrimaryField env = none)
    (hx : env.Exec scope.SQL scope.SQLVars = .ok result) :
    executeInsert env scope columns
      = { scope.logExec with RowsAffected := result.RowsAffected } := by
  simp [executeInsert, hp, hx]

theorem executeInsert_none_error (env : Env) (scope : Scope) (columns : List String)
    (err : Err) (hp : scope.PrimaryField env = none)
    (hx : env.Exec scope.SQL scope.SQLVars = .error err) :
    executeInsert env scope columns = scope.logExec.Err (some err) := by
  simp [executeInsert, hp, hx]

theorem executeInsert_exec_error (env : Env) (scope : Scope) (columns : List String)
    (i : Nat) (pf : Field) (err : Err) (hp : scope.PrimaryField env = some (i, pf))
    (hs : usesLastInsertID env scope columns = true)
    (hx : env.Exec scope.SQL scope.SQLVars = .error err) :
    executeInsert env scope columns = scope.logExec.Err (some err) := by
  unfold usesLastInsertID at hs
  simp [executeInsert, hp, hx, hs]

theorem setField_addressable (s : Scope) (i : Nat) (f : Field) (v : Value)
    (ha : f.CanAddr = true) :
    s.setField i f v
      = ({ s with
            fields := s.fields.set i { f with value := v, IsBlank := v.isZero },
            log := s.log ++ [Event.set i v] }, none) := by
  simp [Scope.setField, Field.Set, ha]

theorem setField_unaddressable (s : Scope) (i : Nat) (f : Field) (v : Value)
    (ha : f.CanAddr = false) :
    s.setField i f v = (s, some ErrUnaddressable) := by
  simp [Scope.setField, Field.Set, ha]

theorem executeInsert_exec_set (env : Env) (scope : Scope) (columns : List String)
    (i : Nat) (pf : Field) (result : Result) (id : Int)
    (hp : scope.PrimaryField env = some (i, pf))
    (hs : usesLastInsertID env scope columns = true)
    (hx : env.Exec scope.SQL scope.SQLVars = .ok result)
    (hb : pf.IsBlank = true) (hl : result.LastInsertId = .ok id) (ha : pf.CanAddr = true) :
    executeInsert env scope columns
      = { scope with
          fields := scope.fields.set i { pf with value := Value.int id, IsBlank := decide (id = 0) },
          RowsAffected := result.RowsAffected,
          log := scope.log ++ [Event.exec scope.SQL scope.SQLVars, Event.set i (Value.int id)] } := by
  unfold usesLastInsertID at hs
  have hz : (Value.int id).isZero = decide (id = 0) := by
    by_cases hz : id = 0 <;> simp [Value.isZero, hz]
  simp [executeInsert, hp, hx, hs, hb, hl, setField_addressable _ i pf _ ha, Scope.Err,
    Scope.logExec, hz]

theorem executeInsert_exec_unset (env : Env) (scope : Scope) (columns : List String)
    (i : Nat) (pf : Field) (result : Result) (id : Int)
    (hp : scope.PrimaryField env = some (i, pf))
    (hs : usesLastInsertID env scope columns = true)
    (hx : env.Exec scope.SQL scope.SQLVars = .ok result)
    (hb : pf.IsBlank = true) (hl : result.LastInsertId = .ok id) (ha : pf.CanAddr = false) :
    executeInsert env scope columns
      = Scope.Err { scope.logExec with RowsAffected := result.RowsAffected }
          (some ErrUnaddressable) := by
  unfold usesLastInsertID at hs
  simp [executeInsert, hp, hx, hs, hb, hl, setField_unaddressable _ i pf _ ha]

theorem executeInsert_exec_noid (env : Env) (scope : Scope) (columns : List String)
    (i : Nat) (pf : Field) (result : Result) (err : Err)
    (hp : scope.PrimaryField env = some (i, pf))
    (hs : usesLastInsertID env scope columns = true)
    (hx : env.Exec scope.SQL scope.SQLVars = .ok result)
    (hb : pf.IsBlank = true) (hl : result.LastInsertId = .error err) :
    executeInsert env scope columns
      = Scope.Err { scope.logExec with RowsAffected := result.RowsAffected } (some err) := by
  unfold usesLastInsertID at hs
  simp [executeInsert, hp, hx, hs, hb, hl]

theorem executeInsert_exec_keep (env : Env) (scope : Scope) (columns : List String)
    (i : Nat) (pf : Field) (result : Result)
    (hp : scope.PrimaryField env = some (i, pf))
    (hs : usesLastInsertID env scope columns = true)
    (hx : env.Exec scope.SQL scope.SQLVars = .ok result)
    (hb : pf.IsBlank = false) :
    executeInsert env scope columns
      = { scope.logExec with RowsAffected := result.RowsAffected } := by
  unfold usesLastInsertID at hs
  simp [executeInsert, hp, hx, hs, hb]

theorem executeInsert_query_ok (env : Env) (scope : Scope) (columns : List String)
    (i : Nat) (pf : Field) (v : Value)
    (hp : scope.PrimaryField env = some (i, pf))
    (hs : usesLastInsertID env scope columns = false)
    (ha : pf.CanAddr = true)
    (hq : env.QueryRow scope.SQL scope.SQLVars = .ok v) :
    executeInsert env scope columns
      = { scope with
          fields := scope.fields.set i { pf with value := v, IsBlank := false },
          RowsAffected := 1,
          log := scope.log ++ [Event.queryRow scope.SQL scope.SQLVars, Event.scan i v] } := by
  unfold usesLastInsertID at hs
  simp [executeInsert, hp, hs, ha, hq]

theorem executeInsert_query_error (env : Env) (scope : Scope) (columns : List String)
    (i : Nat) (pf : Field) (err : Err)
    (hp : scope.PrimaryField env = some (i, pf))
    (hs : usesLastInsertID env scope columns = false)
    (ha : pf.CanAddr = true)
    (hq : env.QueryRow scope.SQL scope.SQLVars = .error err) :
    executeInsert env scope columns
      = Scope.Err { scope with log := scope.log ++ [Event.queryRow scope.SQL scope.SQLVars] }
          (some err) := by
  unfold usesLastInsertID at hs
  simp [executeInsert, hp, hs, ha, hq]

theorem executeInsert_unaddressable (env : Env) (scope : Scope) (columns : List String)
    (i : Nat) (pf : Field)
    (hp : scope.PrimaryField env = some (i, pf))
    (hs : usesLastInsertID env scope columns = false)
    (ha : pf.CanAddr = false) :
    executeInsert env scope columns = scope.Err (some ErrUnaddressable) := by
  unfold usesLastInsertID at hs
  simp [executeInsert, hp, hs, ha]

theorem Err_frame (s : Scope) (err : Option Err) :
    (s.Err err).fields = s.fields ∧ (s.Err err).SQL = s.SQL ∧ (s.Err err).SQLVars = s.SQLVars ∧
    (s.Err err).RowsAffected = s.RowsAffected ∧ (s.Err err).settings = s.settings ∧
    (s.Err err).instanceValues = s.instanceValues ∧ (s.Err err).clock = s.clock ∧
    (s.Err err).log = s.log := by
  cases err with
  | none => simp [Scope.Err]
  | some e => cases hE : s.Error <;> simp [Scope.Err, hE]

/-- The execution part of `createCallback` leaves the SQL text, the bound
parameters, the settings, the instance-local store and the clock alone. -/
theorem executeInsert_frame (env : Env) (scope : Scope) (columns : List String) :
    (executeInsert env scope columns).SQL = scope.SQL ∧
    (executeInsert env scope columns).SQLVars = scope.SQLVars ∧
    (executeInsert env scope columns).settings = scope.settings ∧
    (executeInsert env scope columns).instanceValues = scope.instanceValues ∧
    (executeInsert env scope columns).clock = scope.clock := by
  cases hp : scope.PrimaryField env with
  | none =>
    cases hx : env.Exec scope.SQL scope.SQLVars with
    | ok result => simp [executeInsert_none_ok env scope columns result hp hx, Scope.logExec]
    | error err =>
      rw [executeInsert_none_error env scope columns err hp hx]
      simp [Err_frame, Scope.logExec]
  | some p =>
    obtain ⟨i, pf⟩ := p
    cases hs : usesLastInsertID env scope columns with
    | true =>
      cases hx : env.Exec scope.SQL scope.SQLVars with
      | error err =>
        rw [executeInsert_exec_error env scope columns i pf err hp hs hx]
        simp [Err_frame, Scope.logExec]
      | ok result =>
        cases hb : pf.IsBlank with
        | false =>
          simp [executeInsert_exec_keep env scope columns i pf result hp hs hx hb, Scope.logExec]
        | true =>
          cases hl : result.LastInsertId with
          | ok id =>
            cases ha : pf.CanAddr with
            | true =>
              simp [executeInsert_exec_set env scope columns i pf result id hp hs hx hb hl ha]
            | false =>
              rw [executeInsert_exec_unset env scope columns i pf result id hp hs hx hb hl ha]
              simp [Err_frame, Scope.logExec]
          | error err =>
            rw [executeInsert_exec_noid env scope columns i pf result err hp hs hx hb hl]
            simp [Err_frame, Scope.logExec]
    | false =>
      cases ha : pf.CanAddr with
      | false =>
        rw [executeInsert_unaddressable env scope columns i pf hp hs ha]
        simp [Err_frame]
      | true =>
        cases hq : env.QueryRow scope.SQL scope.SQLVars with
        | ok v => simp [executeInsert_query_ok env scope columns i pf v hp hs ha hq]
        | error err =>
          rw [executeInsert_query_error env scope columns i pf err hp hs ha hq]
          simp [Err_frame]

theorem createCallback_eq (env : Env) (scope : Scope) (h : scope.HasError = false) :
    createCallback env scope
      = executeInsert env (prepareInsert env scope) (createLoop env scope).2.columns := by
  simp [createCallback, h]

/-- C1: on a scope with no error, the column list built by `createCallback` is
the concatenation, over the snapshot in order, of what each field contributes
according to `columnSources` (a changeable plain field: nothing when blank with
a default value or when a blank primary key, else its quoted column; a
changeable field that is not plain with a belongs_to relationship: the quoted
column of each foreign key whose field exists and is not changeable; nothing
otherwise).  There are as many placeholders as columns, the i-th placeholder
is the dialect's placeholder of the i-th parameter bound by the step, and that
parameter is the current value of the field behind the i-th column.  No
changeable plain blank primary key is behind a column. -/
theorem createCallback_column_list (env : Env) (scope : Scope)
    (h : scope.HasError = false) :
    (createLoop env scope).2.columns
      = (scope.fields.flatMap (columnSources env scope)).map (fun f => env.Quote f.DBName) ∧
    (createLoop env scope).2.placeholders.length = (createLoop env scope).2.columns.length ∧
    (createLoop env scope).2.placeholders
      = bindVars env scope.SQLVars.length (scope.fields.flatMap (columnSources env scope)).length ∧
    (createCallback env scope).SQLVars
      = scope.SQLVars ++ (scope.fields.flatMap (columnSources env scope)).map (fun f => f.value) ∧
    (scope.fields.flatMap (columnSources env scope)).all
      (fun f => !(env.changeableField f && f.isPlain && f.IsPrimaryKey && f.IsBlank)) = true ∧
    scope.fields.all (fun f =>
      !(f.isPlain && f.IsPrimaryKey && f.IsBlank) || (columnSources env scope f).isEmpty) = true := by
  obtain ⟨_, hc, hv, hp⟩ := createLoop_inv env scope
  refine ⟨hc, ?_, hp, ?_, ?_, ?_⟩
  · rw [hc, hp]
    simp [bindVars]
  · rw [createCallback_eq env scope h, (executeInsert_frame env _ _).2.1]
    simpa [prepareInsert, Scope.Raw] using hv
  · rw [List.all_eq_true]
    intro f hf
    rw [List.mem_flatMap] at hf
    obtain ⟨g, _, hfg⟩ := hf
    unfold columnSources at hfg
    by_cases hch : env.changeableField g = true
    · simp only [hch, if_true] at hfg
      by_cases hpl : g.isPlain = true
      · simp only [hpl, if_true] at hfg
        by_cases hbd : (g.IsBlank && g.HasDefaultValue) = true
        · simp [hbd] at hfg
        · by_cases hpk : (g.IsPrimaryKey && g.IsBlank) = true
          · simp [hbd, hpk] at hfg
          · simp only [hbd, hpk, Bool.false_eq_true, ↓reduceIte, List.mem_singleton] at hfg
            subst hfg
            simp only [Bool.and_eq_true, not_and, Bool.not_eq_true] at hpk
            cases h1 : f.IsPrimaryKey <;> cases h2 : f.IsBlank <;> simp_all
      · simp only [hpl, Bool.false_eq_true, ↓reduceIte] at hfg
        cases hr : g.Relationship with
        | none => simp [hr] at hfg
        | some r =>
          simp only [hr] at hfg
          by_cases hk : (r.Kind == "belongs_to") = true
          · simp only [hk, if_true, foreignSources, List.mem_filterMap] at hfg
            obtain ⟨fk, _, hfk⟩ := hfg
            cases hl : scope.FieldByName env fk with
            | none => simp [hl] at hfk
            | some p =>
              obtain ⟨i, ff⟩ := p
              by_cases hcf : env.changeableField ff = true
              · simp [hl, hcf] at hfk
              · simp only [hl, hcf, Bool.false_eq_true, ↓reduceIte, Option.some.injEq] at hfk
                subst hfk
                simp only [Bool.not_eq_true] at hcf
                simp [hcf]
          · simp [hk] at hfg
    · simp [hch] at hfg
  · rw [List.all_eq_true]
    intro f _
    by_cases hx : (f.isPlain && f.IsPrimaryKey && f.IsBlank) = true
    · simp only [Bool.and_eq_true] at hx
      obtain ⟨⟨h1, h2⟩, h3⟩ := hx
      by_cases hch : env.changeableField f = true <;>
        by_cases hd : f.HasDefaultValue = true <;>
          simp [columnSources, h1, h2, h3, hch, hd]
    · simp only [Bool.not_eq_true] at hx
      simp [hx]

theorem createCallback_column_list_witness :
    (freshScope sampleFields).HasError = false ∧
    (createLoop (sampleEnv (.ok 7)) (freshScope sampleFields)).2.columns
      = ["name", "created_at"] ∧
    (createLoop (sampleEnv (.ok 7)) (freshScope sampleFields)).2.placeholders = ["?", "?"] ∧
    (createCallback (sampleEnv (.ok 7)) (freshScope sampleFields)).SQLVars
      = [Value.str "a", Value.time 0] := by
  have h := createCallback_column_list (sampleEnv (.ok 7)) (freshScope sampleFields) rfl
  refine ⟨rfl, ?_, ?_, ?_⟩
  · rw [h.1]; rfl
  · rw [h.2.2.1]; rfl
  · rw [h.2.2.2.1]; rfl

theorem createCallback_InstanceGet (env : Env) (scope : Scope) (h : scope.HasError = false)
    (hI : scope.InstanceGet "gorm:blank_columns_with_default_value" = none) :
    (createCallback env scope).InstanceGet "gorm:blank_columns_with_default_value"
      = if (scope.fields.filter (blankWithDefault env)).map (fun f => env.Quote f.DBName) = []
        then none
        else some ((scope.fields.filter (blankWithDefault env)).map (fun f => env.Quote f.DBName)) := by
  obtain ⟨hb, hi⟩ := createLoop_blank env scope
  rw [createCallback_eq env scope h,
    InstanceGet_congr _ (prepareInsert env scope) _ (executeInsert_frame env _ _).2.2.2.1,
    InstanceGet_congr (prepareInsert env scope) (createLoop env scope).1 _ rfl, hi, hb, hI]

/-- C2: on a scope with no error whose instance-local store has no list of
blank columns, no changeable plain field that is blank with a default value is
behind a column of the insert (each such field of the snapshot contributes
nothing), and after `createCallback` the list the reload step takes from the
store and selects is exactly the quoted column names of all such fields, in
snapshot order: with no such field the reload step does nothing, with one it
issues the read of exactly that list and copies the result onto the entity,
unless `createCallback` left an error, in which case nothing is read. -/
theorem reload_select_list (env : Env) (scope : Scope) (h : scope.HasError = false)
    (hI : scope.InstanceGet "gorm:blank_columns_with_default_value" = none) :
    (createLoop env scope).2.columns
      = (scope.fields.flatMap (columnSources env scope)).map (fun f => env.Quote f.DBName) ∧
    (scope.fields.flatMap (columnSources env scope)).all
      (fun f => !blankWithDefault env f) = true ∧
    scope.fields.all
      (fun f => !blankWithDefault env f || (columnSources env scope f).isEmpty) = true ∧
    (createCallback env scope).InstanceGet "gorm:blank_columns_with_default_value"
      = (if (scope.fields.filter (blankWithDefault env)).map (fun f => env.Quote f.DBName) = []
        then none
        else some
          ((scope.fields.filter (blankWithDefault env)).map (fun f => env.Quote f.DBName))) ∧
    forceReloadAfterCreateCallback env (createCallback env scope)
      = if (scope.fields.filter (blankWithDefault env)).map (fun f => env.Quote f.DBName) = []
        then createCallback env scope
        else if (createCallback env scope).Error.isSome then createCallback env scope
        else
          { createCallback env scope with
            fields := env.find env.TableName
              ((scope.fields.filter (blankWithDefault env)).map (fun f => env.Quote f.DBName))
              (reloadConditions (createCallback env scope)) (createCallback env scope).fields,
            log := (createCallback env scope).log ++
              [Event.find env.TableName
                ((scope.fields.filter (blankWithDefault env)).map (fun f => env.Quote f.DBName))
                (reloadConditions (createCallback env scope))] } := by
  refine ⟨(createLoop_inv env scope).2.1, ?_, ?_, createCallback_InstanceGet env scope h hI, ?_⟩
  · rw [List.all_eq_true]
    intro f hf
    rw [List.mem_flatMap] at hf
    obtain ⟨g, _, hfg⟩ := hf
    unfold columnSources at hfg
    by_cases hch : env.changeableField g = true
    · simp only [hch, if_true] at hfg
      by_cases hpl : g.isPlain = true
      · simp only [hpl, if_true] at hfg
        by_cases hbd : (g.IsBlank && g.HasDefaultValue) = true
        · simp [hbd] at hfg
        · by_cases hpk : (g.IsPrimaryKey && g.IsBlank) = true
          · simp [hbd, hpk] at hfg
          · simp only [hbd, hpk, Bool.false_eq_true, ↓reduceIte, List.mem_singleton] at hfg
            subst hfg
            cases h1 : f.IsBlank <;> cases h2 : f.HasDefaultValue <;>
              simp_all [blankWithDefault]
      · simp only [hpl, Bool.false_eq_true, ↓reduceIte] at hfg
        cases hr : g.Relationship with
        | none => simp [hr] at hfg
        | some r =>
          simp only [hr] at hfg
          by_cases hk : (r.Kind == "belongs_to") = true
          · simp only [hk, if_true, foreignSources, List.mem_filterMap] at hfg
            obtain ⟨fk, _, hfk⟩ := hfg
            cases hl : scope.FieldByName env fk with
            | none => simp [hl] at hfk
            | some p =>
              obtain ⟨i, ff⟩ := p
              by_cases hcf : env.changeableField ff = true
              · simp [hl, hcf] at hfk
              · simp only [hl, hcf, Bool.false_eq_true, ↓reduceIte, Option.some.injEq] at hfk
                subst hfk
                simp only [Bool.not_eq_true] at hcf
                simp [blankWithDefault, hcf]
          · simp [hk] at hfg
    · simp [hch] at hfg
  · rw [List.all_eq_true]
    intro f _
    by_cases hx : blankWithDefault env f = true
    · have hx2 := hx
      simp only [blankWithDefault, Bool.and_eq_true] at hx2
      obtain ⟨⟨⟨h1, h2⟩, h3⟩, h4⟩ := hx2
      simp [columnSources, h1, h2, h3, h4]
    · simp only [Bool.not_eq_true] at hx
      simp [hx]
  · have hg := createCallback_InstanceGet env scope h hI
    unfold forceReloadAfterCreateCallback
    rw [hg]
    by_cases hb : (scope.fields.filter (blankWithDefault env)).map (fun f => env.Quote f.DBName) = []
    · rw [if_pos hb, if_pos hb]
    · rw [if_neg hb, if_neg hb]
      simp only [Scope.Scan, Scope.HasError]

theorem reload_select_list_witness :
    (freshScope sampleFields).HasError = false ∧
    (freshScope sampleFields).InstanceGet "gorm:blank_columns_with_default_value" = none ∧
    (createLoop (sampleEnv (.ok 7)) (freshScope sampleFields)).2.columns
      = ["name", "created_at"] ∧
    (forceReloadAfterCreateCallback (sampleEnv (.ok 7))
        (createCallback (sampleEnv (.ok 7)) (freshScope sampleFields))).log
      = (createCallback (sampleEnv (.ok 7)) (freshScope sampleFields)).log
        ++ [Event.find "users" ["status"] [("id = ?", Value.int 7)]] := by
  have h := reload_select_list (sampleEnv (.ok 7)) (freshScope sampleFields) rfl rfl
  refine ⟨rfl, rfl, ?_, ?_⟩
  · rw [h.1]; rfl
  · rw [h.2.2.2.2]; rfl

theorem FieldByName_eq_some (env : Env) (s : Scope) (name : String) (i : Nat) (f : Field) :
    s.FieldByName env name = some (i, f) ↔
      env.fieldByName (s.fields.map Field.toStructField) name = some i ∧ s.fields[i]? = some f := by
  cases hl : env.fieldByName (s.fields.map Field.toStructField) name with
  | none => simp [Scope.FieldByName, hl]
  | some j =>
    cases hg : s.fields[j]? with
    | none =>
      simp only [Scope.FieldByName, hl, hg, Option.some.injEq]
      constructor
      · intro hx
        cases hx
      · rintro ⟨rfl, h2⟩
        rw [hg] at h2
        cases h2
    | some g =>
      simp only [Scope.FieldByName, hl, hg, Option.some.injEq, Prod.mk.injEq]
      constructor
      · rintro ⟨rfl, rfl⟩
        exact ⟨rfl, hg⟩
      · rintro ⟨rfl, h2⟩
        rw [hg] at h2
        exact ⟨rfl, Option.some.inj h2⟩

theorem Set_toStructField (f : Field) (v : Value) :
    (f.Set v).1.toStructField = f.toStructField := by
  by_cases ha : f.CanAddr = true <;> simp [Field.Set, ha]

theorem Set_unaddressable (f : Field) (v : Value) (ha : f.CanAddr = false) :
    (f.Set v).1 = f := by
  simp [Field.Set, ha]

theorem Set_addressable (f : Field) (v : Value) (ha : f.CanAddr = true) :
    (f.Set v).1 = { f with value := v, IsBlank := v.isZero } := by
  simp [Field.Set, ha]

theorem getElem?_lt {α : Type} (l : List α) (i : Nat) (a : α) (h : l[i]? = some a) :
    i < l.length := by
  rcases Nat.lt_or_ge i l.length with hlt | hge
  · exact hlt
  · rw [List.getElem?_eq_none hge] at h
    cases h

theorem set_same {α : Type} (l : List α) (i : Nat) (a : α) (h : l[i]? = some a) :
    l.set i a = l := by
  apply List.ext_getElem?
  intro k
  by_cases hk : i = k
  · subst hk
    rw [List.getElem?_set_self (getElem?_lt l i a h), h]
  · rw [List.getElem?_set_ne hk]

theorem setField_fields (s : Scope) (i : Nat) (f : Field) (v : Value)
    (h : s.fields[i]? = some f) :
    (s.setField i f v).1.fields = s.fields.set i (f.Set v).1 := by
  by_cases ha : f.CanAddr = true
  · simp [Scope.setField, Field.Set, ha]
  · simp only [Bool.not_eq_true] at ha
    rw [setField_unaddressable s i f v ha, Set_unaddressable f v ha, set_same s.fields i f h]

theorem setField_frame (s : Scope) (i : Nat) (f : Field) (v : Value) :
    (s.setField i f v).1.Error = s.Error ∧ (s.setField i f v).1.SQL = s.SQL ∧
    (s.setField i f v).1.SQLVars = s.SQLVars ∧
    (s.setField i f v).1.RowsAffected = s.RowsAffected ∧
    (s.setField i f v).1.settings = s.settings ∧
    (s.setField i f v).1.instanceValues = s.instanceValues ∧
    (s.setField i f v).1.clock = s.clock := by
  by_cases ha : f.CanAddr = true <;> simp [Scope.setField, Field.Set, ha]

theorem map_set_toStructField (l : List Field) (i : Nat) (f : Field) (v : Value)
    (h : l[i]? = some f) :
    (l.set i (f.Set v).1).map Field.toStructField = l.map Field.toStructField := by
  apply List.ext_getElem?
  intro k
  by_cases hk : i = k
  · subst hk
    simp only [List.getElem?_map]
    rw [List.getElem?_set_self (getElem?_lt l i f h), h]
    simp [Set_toStructField]
  · simp [List.getElem?_map, List.getElem?_set_ne hk]

theorem setIfBlank_names (env : Env) (s : Scope) (name : String) (now : Value) :
    (setIfBlank env s name now).fields.map Field.toStructField
      = s.fields.map Field.toStructField := by
  unfold setIfBlank
  cases hl : s.FieldByName env name with
  | none => rfl
  | some p =>
    obtain ⟨i, f⟩ := p
    have h2 := ((FieldByName_eq_some env s name i f).1 hl).2
    by_cases hb : f.IsBlank = true
    · simp only [hb, if_true]
      rw [setField_fields s i f now h2]
      exact map_set_toStructField s.fields i f now h2
    · simp [hb]

theorem setIfBlank_get (env : Env) (s : Scope) (name : String) (now : Value) (k : Nat) :
    (setIfBlank env s name now).fields[k]? =
      if env.fieldByName (s.fields.map Field.toStructField) name = some k
          ∧ (s.fields[k]?).map Field.IsBlank = some true
      then (s.fields[k]?).map (fun f => (f.Set now).1)
      else s.fields[k]? := by
  unfold setIfBlank
  cases hl : s.FieldByName env name with
  | none =>
    have hne : ¬ (env.fieldByName (s.fields.map Field.toStructField) name = some k
        ∧ (s.fields[k]?).map Field.IsBlank = some true) := by
      rintro ⟨h1, h2⟩
      cases hg : s.fields[k]? with
      | none => simp [hg] at h2
      | some g =>
        have := (FieldByName_eq_some env s name k g).2 ⟨h1, hg⟩
        rw [hl] at this
        cases this
    rw [if_neg hne]
  | some p =>
    obtain ⟨i, f⟩ := p
    obtain ⟨h1, h2⟩ := (FieldByName_eq_some env s name i f).1 hl
    have hlt : i < s.fields.length := getElem?_lt s.fields i f h2
    by_cases hk : i = k
    · subst hk
      by_cases hb : f.IsBlank = true
      · simp only [hb, if_true]
        rw [setField_fields s i f now h2, List.getElem?_set_self hlt]
        simp [h1, h2, hb]
      · simp [h1, h2, hb]
    · have hne : ¬ (env.fieldByName (s.fields.map Field.toStructField) name = some k
          ∧ (s.fields[k]?).map Field.IsBlank = some true) := by
        rintro ⟨h3, _⟩
        rw [h1] at h3
        exact hk (Option.some.inj h3)
      rw [if_neg hne]
      by_cases hb : f.IsBlank = true
      · simp only [hb, if_true]
        rw [setField_fields s i f now h2, List.getElem?_set_ne hk]
      · simp [hb]

theorem setIfBlank_frame (env : Env) (s : Scope) (name : String) (now : Value) :
    (setIfBlank env s name now).Error = s.Error ∧ (setIfBlank env s name now).SQL = s.SQL ∧
    (setIfBlank env s name now).SQLVars = s.SQLVars ∧
    (setIfBlank env s name now).RowsAffected = s.RowsAffected ∧
    (setIfBlank env s name now).settings = s.settings ∧
    (setIfBlank env s name now).instanceValues = s.instanceValues ∧
    (setIfBlank env s name now).clock = s.clock := by
  unfold setIfBlank
  cases s.FieldByName env name with
  | none => simp
  | some p =>
    obtain ⟨i, f⟩ := p
    by_cases hb : f.IsBlank = true
    · simp only [hb, if_true]
      exact setField_frame s i f now
    · simp [hb]

theorem updateTimeStamp_get (env : Env) (scope : Scope) (h : scope.HasError = false) (k : Nat) :
    (updateTimeStampForCreateCallback env scope).fields[k]? =
      if env.fieldByName (scope.fields.map Field.toStructField) "UpdatedAt" = some k
          ∧ ((if env.fieldByName (scope.fields.map Field.toStructField) "CreatedAt" = some k
                  ∧ (scope.fields[k]?).map Field.IsBlank = some true
              then (scope.fields[k]?).map (fun f => (f.Set (env.nowFunc scope.clock)).1)
              else scope.fields[k]?).map Field.IsBlank = some true)
      then (if env.fieldByName (scope.fields.map Field.toStructField) "CreatedAt" = some k
                  ∧ (scope.fields[k]?).map Field.IsBlank = some true
              then (scope.fields[k]?).map (fun f => (f.Set (env.nowFunc scope.clock)).1)
              else scope.fields[k]?).map (fun f => (f.Set (env.nowFunc scope.clock)).1)
      else (if env.fieldByName (scope.fields.map Field.toStructField) "CreatedAt" = some k
                  ∧ (scope.fields[k]?).map Field.IsBlank = some true
              then (scope.fields[k]?).map (fun f => (f.Set (env.nowFunc scope.clock)).1)
              else scope.fields[k]?) := by
  simp only [updateTimeStampForCreateCallback, h, Bool.not_false, if_true]
  rw [setIfBlank_get, setIfBlank_names, setIfBlank_get]

/-- C3, as amended: on a scope with no error, `updateTimeStampForCreateCallback`
reads the clock once; a field found under `CreatedAt` or `UpdatedAt` is left as
it was when it is not blank, holds that one reading afterwards when it was
blank and is addressable, and is left as it was when it was blank and is not
addressable (the error of `Set` is dropped); every field found under neither
name, and the rest of the scope, is unchanged. -/
theorem updateTimeStamp_spec (env : Env) (scope : Scope) (h : scope.HasError = false) :
    (∀ name i field, name = "CreatedAt" ∨ name = "UpdatedAt" →
        scope.FieldByName env name = some (i, field) →
        (field.IsBlank = false →
          (updateTimeStampForCreateCallback env scope).fields[i]? = some field) ∧
        (field.IsBlank = true → field.CanAddr = true →
          ((updateTimeStampForCreateCallback env scope).fields[i]?).map Field.value
            = some (env.nowFunc scope.clock)) ∧
        (field.IsBlank = true → field.CanAddr = false →
          (updateTimeStampForCreateCallback env scope).fields[i]? = some field)) ∧
    (∀ k, (∀ f, scope.FieldByName env "CreatedAt" ≠ some (k, f)) →
        (∀ f, scope.FieldByName env "UpdatedAt" ≠ some (k, f)) →
        (updateTimeStampForCreateCallback env scope).fields[k]? = scope.fields[k]?) ∧
    (updateTimeStampForCreateCallback env scope).fields.map Field.toStructField
      = scope.fields.map Field.toStructField ∧
    (updateTimeStampForCreateCallback env scope).clock = scope.clock + 1 ∧
    (updateTimeStampForCreateCallback env scope).Error = scope.Error ∧
    (updateTimeStampForCreateCallback env scope).SQL = scope.SQL ∧
    (updateTimeStampForCreateCallback env scope).SQLVars = scope.SQLVars ∧
    (updateTimeStampForCreateCallback env scope).RowsAffected = scope.RowsAffected ∧
    (updateTimeStampForCreateCallback env scope).instanceValues = scope.instanceValues := by
  refine ⟨?_, ?_, ?_, ?_⟩
  · intro name i field hname hl
    obtain ⟨h1, h2⟩ := (FieldByName_eq_some env scope name i field).1 hl
    rw [updateTimeStamp_get env scope h i]
    rcases hname with rfl | rfl
    · refine ⟨?_, ?_, ?_⟩
      · intro hb
        simp [h1, h2, hb]
      · intro hb ha
        by_cases hu : env.fieldByName (scope.fields.map Field.toStructField) "UpdatedAt" = some i
        · by_cases hz : (env.nowFunc scope.clock).isZero = true <;>
            simp [h1, h2, hb, ha, hu, hz, Field.Set]
        · simp [h1, h2, hb, ha, hu, Field.Set]
      · intro hb ha
        by_cases hu : env.fieldByName (scope.fields.map Field.toStructField) "UpdatedAt" = some i
        · simp [h1, h2, hb, ha, hu, Field.Set]
        · simp [h1, h2, hb, ha, hu, Field.Set]
    · refine ⟨?_, ?_, ?_⟩
      · intro hb
        simp [h1, h2, hb]
      · intro hb ha
        by_cases hc : env.fieldByName (scope.fields.map Field.toStructField) "CreatedAt" = some i
        · by_cases hz : (env.nowFunc scope.clock).isZero = true <;>
            simp [h1, h2, hb, ha, hc, hz, Field.Set]
        · simp [h1, h2, hb, ha, hc, Field.Set]
      · intro hb ha
        by_cases hc : env.fieldByName (scope.fields.map Field.toStructField) "CreatedAt" = some i
        · simp [h1, h2, hb, ha, hc, Field.Set]
        · simp [h1, h2, hb, ha, hc, Field.Set]
  · intro k hc hu
    rw [updateTimeStamp_get env scope h k]
    cases hg : scope.fields[k]? with
    | none => simp
    | some g =>
      have hc1 : env.fieldByName (scope.fields.map Field.toStructField) "CreatedAt" ≠ some k :=
        fun hx => hc g ((FieldByName_eq_some env scope _ k g).2 ⟨hx, hg⟩)
      have hu1 : env.fieldByName (scope.fields.map Field.toStructField) "UpdatedAt" ≠ some k :=
        fun hx => hu g ((FieldByName_eq_some env scope _ k g).2 ⟨hx, hg⟩)
      simp [hc1, hu1]
  · simp only [updateTimeStampForCreateCallback, h, Bool.not_false, if_true]
    rw [setIfBlank_names, setIfBlank_names]
  · simp only [updateTimeStampForCreateCallback, h, Bool.not_false, if_true]
    obtain ⟨a1, a2, a3, a4, _, a6, a7⟩ := setIfBlank_frame env
      (setIfBlank env { scope with clock := scope.clock + 1 } "CreatedAt" (env.nowFunc scope.clock))
      "UpdatedAt" (env.nowFunc scope.clock)
    obtain ⟨b1, b2, b3, b4, _, b6, b7⟩ := setIfBlank_frame env
      { scope with clock := scope.clock + 1 } "CreatedAt" (env.nowFunc scope.clock)
    exact ⟨a7.trans b7, a1.trans b1, a2.trans b2, a3.trans b3, a4.trans b4, a6.trans b6⟩

theorem updateTimeStamp_spec_witness :
    (freshScope sampleFields).HasError = false ∧
    (freshScope sampleFields).FieldByName (sampleEnv (.ok 7)) "CreatedAt"
      = some (3, sampleField "CreatedAt" "created_at" (Value.time 0)) ∧
    ((updateTimeStampForCreateCallback (sampleEnv (.ok 7)) (freshScope sampleFields)).fields[3]?).map
        Field.value = some (Value.time 100) :=
  ⟨rfl, rfl,
    ((updateTimeStamp_spec (sampleEnv (.ok 7)) (freshScope sampleFields) rfl).1
      "CreatedAt" 3 (sampleField "CreatedAt" "created_at" (Value.time 0)) (Or.inl rfl) rfl).2.1
      rfl rfl⟩

/-- C3 as stated fails: on an entity that is not addressable the blank
`CreatedAt` field is found, `Set` cannot assign the reading taken from the
clock, its error is dropped, and the field is still blank and holds the zero
time after the step. -/
theorem unaddressable_timestamp_stays_blank :
    (freshScope unaddressableFields).HasError = false ∧
    ((freshScope unaddressableFields).FieldByName (sampleEnv (.ok 7)) "CreatedAt").map
        (fun p => (p.1, p.2.IsBlank, p.2.CanAddr, p.2.value))
      = some (3, true, false, Value.time 0) ∧
    (sampleEnv (.ok 7)).nowFunc (freshScope unaddressableFields).clock = Value.time 100 ∧
    ((updateTimeStampForCreateCallback (sampleEnv (.ok 7))
        (freshScope unaddressableFields)).fields[3]?).map (fun f => (f.IsBlank, f.value))
      = some (true, Value.time 0) ∧
    (updateTimeStampForCreateCallback (sampleEnv (.ok 7)) (freshScope unaddressableFields)).Error
      = none := by
  refine ⟨rfl, rfl, rfl, rfl, rfl⟩

theorem CallMethod_frame (env : Env) (s : Scope) (name : String) :
    (s.CallMethod env name).log = s.log ++ [Event.callMethod name] ∧
    (s.CallMethod env name).SQL = s.SQL ∧ (s.CallMethod env name).SQLVars = s.SQLVars ∧
    (s.CallMethod env name).RowsAffected = s.RowsAffected ∧
    (s.CallMethod env name).instanceValues = s.instanceValues ∧
    (s.CallMethod env name).HasError = (s.HasError || (env.method name s.fields).2.isSome) := by
  unfold Scope.CallMethod
  obtain ⟨h1, h2, h3, h4, _, h6, _, h8⟩ := Err_frame
    { s with fields := (env.method name s.fields).1, log := s.log ++ [Event.callMethod name] }
    (env.method name s.fields).2
  refine ⟨h8, h2, h3, h4, h6, ?_⟩
  cases hm : (env.method name s.fields).2 <;> cases hE : s.Error <;>
    simp [Scope.Err, Scope.HasError, hE]

theorem hooks_log (env : Env) (scope : Scope) (first second : String) :
    ((if !(if !scope.HasError then scope.CallMethod env first else scope).HasError then
        (if !scope.HasError then scope.CallMethod env first else scope).CallMethod env second
      else (if !scope.HasError then scope.CallMethod env first else scope)).log
      = scope.log ++ hookEvents env scope first second) ∧
    (scope.HasError = true →
      (if !(if !scope.HasError then scope.CallMethod env first else scope).HasError then
        (if !scope.HasError then scope.CallMethod env first else scope).CallMethod env second
      else (if !scope.HasError then scope.CallMethod env first else scope)) = scope) := by
  cases hE : scope.HasError with
  | true => simp [hookEvents, hE]
  | false =>
    obtain ⟨a1, _, _, _, _, a6⟩ := CallMethod_frame env scope first
    obtain ⟨b1, _, _, _, _, _⟩ := CallMethod_frame env (scope.CallMethod env first) second
    cases hm : (env.method first scope.fields).2.isSome with
    | true =>
      have : (scope.CallMethod env first).HasError = true := by rw [a6, hE, hm]; rfl
      simp [hookEvents, hE, hm, this, a1]
    | false =>
      have : (scope.CallMethod env first).HasError = false := by rw [a6, hE, hm]; rfl
      simp [hookEvents, hE, hm, this, a1, b1]

/-- What two gated hook calls make of a scope. -/
theorem gated_hooks_eq (env : Env) (scope : Scope) (first second : String) :
    (if !(if !scope.HasError then scope.CallMethod env first else scope).HasError then
        (if !scope.HasError then scope.CallMethod env first else scope).CallMethod env second
      else (if !scope.HasError then scope.CallMethod env first else scope))
      = hooksResult env scope first second := by
  unfold hooksResult
  cases hE : scope.Error with
  | some e => simp [Scope.HasError, hE]
  | none =>
    cases hm : (env.method first scope.fields).2 with
    | some e => simp [Scope.HasError, Scope.CallMethod, Scope.Err, hE, hm]
    | none =>
      cases hn : (env.method second (env.method first scope.fields).1).2 <;>
        simp [Scope.HasError, Scope.CallMethod, Scope.Err, hE, hm, hn]

/-- C8: `beforeCreateCallback` invokes `BeforeSave` and then `BeforeCreate`,
each only when the scope has no error at that moment, and `afterCreateCallback`
does the same with `AfterCreate` followed by `AfterSave`.  On a scope with an
error neither hook is invoked and nothing changes.  Otherwise the first hook
is applied to the entity; when it returns an error, that error is put on the
scope and the second hook is not invoked; when it returns none, the second
hook is applied to the entity the first one left, and its error, if any, is
put on the scope (`hooksResult`). -/
theorem hook_callbacks_gated (env : Env) (scope : Scope) :
    beforeCreateCallback env scope = hooksResult env scope "BeforeSave" "BeforeCreate" ∧
    afterCreateCallback env scope = hooksResult env scope "AfterCreate" "AfterSave" ∧
    (∀ first second,
      hooksResult env scope first second =
        match scope.Error with
        | some _ => scope
        | none =>
          match (env.method first scope.fields).2 with
          | some err =>
            { scope with
              fields := (env.method first scope.fields).1,
              Error := some err,
              log := scope.log ++ [Event.callMethod first] }
          | none =>
            { scope with
              fields := (env.method second (env.method first scope.fields).1).1,
              Error := (env.method second (env.method first scope.fields).1).2,
              log := scope.log ++ [Event.callMethod first, Event.callMethod second] }) :=
  ⟨gated_hooks_eq env scope "BeforeSave" "BeforeCreate",
    gated_hooks_eq env scope "AfterCreate" "AfterSave", fun _ _ => rfl⟩

theorem beforeCreateCallback_cases (env : Env) (scope : Scope) :
    beforeCreateCallback env scope = scope ∨
    beforeCreateCallback env scope = scope.CallMethod env "BeforeSave" ∨
    beforeCreateCallback env scope
      = (scope.CallMethod env "BeforeSave").CallMethod env "BeforeCreate" := by
  unfold beforeCreateCallback
  by_cases hE : scope.HasError = true
  · left
    simp [hE]
  · right
    by_cases hS : (scope.CallMethod env "BeforeSave").HasError = true
    · left
      simp [hE, hS]
    · right
      simp [hE, hS]

theorem beforeCreateCallback_frame (env : Env) (scope : Scope) :
    (beforeCreateCallback env scope).SQL = scope.SQL ∧
    (beforeCreateCallback env scope).SQLVars = scope.SQLVars ∧
    (beforeCreateCallback env scope).RowsAffected = scope.RowsAffected ∧
    (beforeCreateCallback env scope).instanceValues = scope.instanceValues ∧
    (beforeCreateCallback env scope).log.filter Event.isSQL = scope.log.filter Event.isSQL := by
  obtain ⟨a1, a2, a3, a4, a5, _⟩ := CallMethod_frame env scope "BeforeSave"
  obtain ⟨b1, b2, b3, b4, b5, _⟩ :=
    CallMethod_frame env (scope.CallMethod env "BeforeSave") "BeforeCreate"
  rcases beforeCreateCallback_cases env scope with hc | hc | hc
  · rw [hc]
    exact ⟨rfl, rfl, rfl, rfl, rfl⟩
  · rw [hc]
    refine ⟨a2, a3, a4, a5, ?_⟩
    rw [a1]
    simp [Event.isSQL]
  · rw [hc]
    refine ⟨b2.trans a2, b3.trans a3, b4.trans a4, b5.trans a5, ?_⟩
    rw [b1, a1]
    simp [Event.isSQL]

/-- C4: on a fresh scope (no error, empty instance-local store), when a before
hook has put an error on the scope during `beforeCreateCallback`, the later
steps of this file, run in chain order (timestamp update, `createCallback`,
`forceReloadAfterCreateCallback`, `afterCreateCallback`), change nothing at
all: no `Exec`, no `QueryRow` and no reload read joins the log, and
rows-affected, SQL text and bound parameters are those of the scope on entry. -/
theorem before_hook_error_skips_sql (env : Env) (scope : Scope)
    (h : scope.HasError = false) (hI : scope.instanceValues = [])
    (he : (beforeCreateCallback env scope).HasError = true) :
    afterCreateCallback env
        (forceReloadAfterCreateCallback env
          (createCallback env
            (updateTimeStampForCreateCallback env (beforeCreateCallback env scope))))
      = beforeCreateCallback env scope ∧
    (afterCreateCallback env
        (forceReloadAfterCreateCallback env
          (createCallback env
            (updateTimeStampForCreateCallback env (beforeCreateCallback env scope))))).log.filter
        Event.isSQL = scope.log.filter Event.isSQL ∧
    (beforeCreateCallback env scope).log
      = scope.log ++ Event.callMethod "BeforeSave" ::
          (if (env.method "BeforeSave" scope.fields).2.isSome then []
           else [Event.callMethod "BeforeCreate"]) ∧
    (beforeCreateCallback env scope).RowsAffected = scope.RowsAffected ∧
    (beforeCreateCallback env scope).SQL = scope.SQL ∧
    (beforeCreateCallback env scope).SQLVars = scope.SQLVars := by
  obtain ⟨f1, f2, f3, f4, f5⟩ := beforeCreateCallback_frame env scope
  have hlog : (beforeCreateCallback env scope).log
      = scope.log ++ Event.callMethod "BeforeSave" ::
          (if (env.method "BeforeSave" scope.fields).2.isSome then []
           else [Event.callMethod "BeforeCreate"]) := by
    have := (hooks_log env scope "BeforeSave" "BeforeCreate").1
    simpa [hookEvents, h, beforeCreateCallback] using this
  have h1 : updateTimeStampForCreateCallback env (beforeCreateCallback env scope)
      = beforeCreateCallback env scope := by
    simp [updateTimeStampForCreateCallback, he]
  have h2 : createCallback env (beforeCreateCallback env scope)
      = beforeCreateCallback env scope := by
    simp [createCallback, he]
  have h3 : forceReloadAfterCreateCallback env (beforeCreateCallback env scope)
      = beforeCreateCallback env scope := by
    simp [forceReloadAfterCreateCallback, Scope.InstanceGet, f4, hI]
  have h4 : afterCreateCallback env (beforeCreateCallback env scope)
      = beforeCreateCallback env scope := by
    simp [afterCreateCallback, he]
  have hall : afterCreateCallback env
        (forceReloadAfterCreateCallback env
          (createCallback env
            (updateTimeStampForCreateCallback env (beforeCreateCallback env scope))))
      = beforeCreateCallback env scope := by
    rw [h1, h2, h3, h4]
  exact ⟨hall, by rw [hall, f5], hlog, f3, f1, f2⟩

theorem insertSQL_congr (env : Env) (s t : Scope) (columns placeholders : List String)
    (hf : s.fields = t.fields) (hs : s.settings = t.settings) :
    insertSQL env s columns placeholders = insertSQL env t columns placeholders := by
  simp [insertSQL, insertModifier, extraOption, lastInsertIDReturningSuffix,
    lastInsertIDOutputInterstitial, returningColumn, Scope.PrimaryField, Scope.Get, hf, hs]

theorem addExtraSpaceIfExist_eq (str : String) :
    addExtraSpaceIfExist str = spaced str := by
  by_cases hs : str = "" <;> simp [addExtraSpaceIfExist, spaced, hs]

/-- C5: on a scope with no error, the SQL text left by `createCallback` is, when
no column was selected, INSERT, the modifier, INTO and the quoted table, the
dialect's default-values text, the extra option and the dialect's returning
suffix (the output interstitial does not appear); otherwise INSERT, the
modifier, INTO and the quoted table, the parenthesised columns joined by commas,
the dialect's output interstitial, VALUES with the parenthesised placeholders
joined by commas, the extra option and the returning suffix.  Each of the four
clauses is written by `spaced`: empty when empty, preceded by one space
otherwise.  The modifier is the setting `gorm:insert_modifier` in upper case,
empty when the setting is absent or reads INTO; the extra option is the setting
`gorm:insert_option`, empty when absent; suffix and interstitial are what the
dialect answers for the quoted table and the quoted primary column (`*` without
a primary field), the interstitial also for the columns. -/
theorem createCallback_sql (env : Env) (scope : Scope) (h : scope.HasError = false) :
    (createCallback env scope).SQL
      = (if scope.fields.flatMap (columnSources env scope) = [] then
          "INSERT"
            ++ spaced (match scope.Get "gorm:insert_modifier" with
                | some str => if env.ToUpper str = "INTO" then "" else env.ToUpper str
                | none => "")
            ++ " INTO " ++ env.QuotedTableName ++ " " ++ env.DefaultValueStr
            ++ spaced (match scope.Get "gorm:insert_option" with
                | some str => str
                | none => "")
            ++ spaced (env.LastInsertIDReturningSuffix env.QuotedTableName
                (match scope.PrimaryField env with
                  | some (_, primaryField) => env.Quote primaryField.DBName
                  | none => "*"))
        else
          "INSERT"
            ++ spaced (match scope.Get "gorm:insert_modifier" with
                | some str => if env.ToUpper str = "INTO" then "" else env.ToUpper str
                | none => "")
            ++ " INTO " ++ env.QuotedTableName
            ++ " ("
            ++ ",".intercalate
                ((scope.fields.flatMap (columnSources env scope)).map
                  (fun f => env.Quote f.DBName))
            ++ ")"
            ++ spaced (env.LastInsertIDOutputInterstitial env.QuotedTableName
                (match scope.PrimaryField env with
                  | some (_, primaryField) => env.Quote primaryField.DBName
                  | none => "*")
                ((scope.fields.flatMap (columnSources env scope)).map
                  (fun f => env.Quote f.DBName)))
            ++ " VALUES ("
            ++ ",".intercalate
                (bindVars env scope.SQLVars.length
                  (scope.fields.flatMap (columnSources env scope)).length)
            ++ ")"
            ++ spaced (match scope.Get "gorm:insert_option" with
                | some str => str
                | none => "")
            ++ spaced (env.LastInsertIDReturningSuffix env.QuotedTableName
                (match scope.PrimaryField env with
                  | some (_, primaryField) => env.Quote primaryField.DBName
                  | none => "*"))) := by
  obtain ⟨g1, _, _, _, g5, _, _⟩ := createLoop_frame env scope
  obtain ⟨_, hc, _, hp⟩ := createLoop_inv env scope
  rw [createCallback_eq env scope h, (executeInsert_frame env _ _).1]
  show insertSQL env (createLoop env scope).1 _ _ = _
  rw [insertSQL_congr env (createLoop env scope).1 scope _ _ g1 g5, hc, hp]
  unfold insertSQL
  simp only [addExtraSpaceIfExist_eq, insertModifier, extraOption, lastInsertIDReturningSuffix,
    lastInsertIDOutputInterstitial, returningColumn, beq_iff_eq]
  by_cases hn : scope.fields.flatMap (columnSources env scope) = []
  · simp [hn]
  · have : ¬ ((scope.fields.flatMap (columnSources env scope)).map
        (fun f => env.Quote f.DBName)).length = 0 := by
      intro h0
      rw [List.length_map] at h0
      exact hn (List.length_eq_zero.1 h0)
    rw [if_neg hn, if_neg this]

theorem createCallback_sql_witness :
    modifiedScope.HasError = false ∧
    (createCallback returningEnv modifiedScope).SQL
      = "INSERT IGNORE INTO users (name,created_at) VALUES (?,?) ON DUPLICATE KEY UPDATE name = name RETURNING id" ∧
    (createCallback (sampleEnv (.ok 7)) (freshScope [])).SQL
      = "INSERT INTO users DEFAULT VALUES" := by
  have h1 := createCallback_sql returningEnv modifiedScope rfl
  have h2 := createCallback_sql (sampleEnv (.ok 7)) (freshScope []) rfl
  refine ⟨rfl, ?_, ?_⟩
  · rw [h1]; rfl
  · rw [h2]; rfl

theorem before_hook_error_skips_sql_witness :
    (freshScope sampleFields).HasError = false ∧
    (freshScope sampleFields).instanceValues = [] ∧
    (beforeCreateCallback rejectingEnv (freshScope sampleFields)).HasError = true ∧
    (afterCreateCallback rejectingEnv
        (forceReloadAfterCreateCallback rejectingEnv
          (createCallback rejectingEnv
            (updateTimeStampForCreateCallback rejectingEnv
              (beforeCreateCallback rejectingEnv (freshScope sampleFields)))))).log
      = [Event.callMethod "BeforeSave"] := by
  have h := before_hook_error_skips_sql rejectingEnv (freshScope sampleFields) rfl rfl rfl
  refine ⟨rfl, rfl, rfl, ?_⟩
  rw [h.1]
  rfl

theorem PrimaryField_congr (env : Env) (s t : Scope) (h : s.fields = t.fields) :
    s.PrimaryField env = t.PrimaryField env := by
  simp [Scope.PrimaryField, h]

theorem PrimaryField_get (env : Env) (s : Scope) (i : Nat) (pf : Field)
    (h : s.PrimaryField env = some (i, pf)) : s.fields[i]? = some pf ∧ i < s.fields.length := by
  unfold Scope.PrimaryField at h
  cases hl : env.primaryField (s.fields.map Field.toStructField) with
  | none => simp [hl] at h
  | some j =>
    cases hg : s.fields[j]? with
    | none => simp [hl, hg] at h
    | some g =>
      simp only [hl, hg, Option.some.injEq, Prod.mk.injEq] at h
      obtain ⟨rfl, rfl⟩ := h
      refine ⟨hg, ?_⟩
      rcases Nat.lt_or_ge j s.fields.length with hlt | hge
      · exact hlt
      · rw [List.getElem?_eq_none hge] at hg
        cases hg

theorem usesLastInsertID_congr (env : Env) (s t : Scope) (columns : List String)
    (h : s.fields = t.fields) :
    usesLastInsertID env s columns = usesLastInsertID env t columns := by
  simp [usesLastInsertID, lastInsertIDReturningSuffix, lastInsertIDOutputInterstitial,
    returningColumn, PrimaryField_congr env s t h]

theorem prepareInsert_frame (env : Env) (scope : Scope) :
    (prepareInsert env scope).fields = scope.fields ∧
    (prepareInsert env scope).Error = scope.Error ∧
    (prepareInsert env scope).RowsAffected = scope.RowsAffected ∧
    (prepareInsert env scope).log = scope.log := by
  obtain ⟨g1, g2, _, g4, _, _, g7⟩ := createLoop_frame env scope
  exact ⟨g1, g2, g4, g7⟩

/-- C6, as amended: on a scope with no error whose primary field exists and is
blank, (second strategy, no returning clause) when `Exec` succeeds, the driver
reports a last insert id and the primary field is addressable, the primary
field holds that id afterwards, is blank exactly when the id is zero, and
rows-affected is the driver's count; (third strategy, a returning clause and
an addressable primary field) when the row is scanned without error, the
primary field holds the scanned value and is marked non-blank, and
rows-affected is 1. -/
theorem create_assigns_primary_key (env : Env) (scope : Scope) (i : Nat) (pf : Field)
    (h : scope.HasError = false) (hp : scope.PrimaryField env = some (i, pf))
    (hb : pf.IsBlank = true) :
    (∀ result id,
      usesLastInsertID env scope (createLoop env scope).2.columns = true →
      env.Exec (prepareInsert env scope).SQL (prepareInsert env scope).SQLVars = .ok result →
      result.LastInsertId = .ok id →
      pf.CanAddr = true →
        (createCallback env scope).fields[i]?
          = some { pf with value := Value.int id, IsBlank := decide (id = 0) } ∧
        (createCallback env scope).RowsAffected = result.RowsAffected) ∧
    (∀ v,
      usesLastInsertID env scope (createLoop env scope).2.columns = false →
      pf.CanAddr = true →
      env.QueryRow (prepareInsert env scope).SQL (prepareInsert env scope).SQLVars = .ok v →
        (createCallback env scope).fields[i]? = some { pf with value := v, IsBlank := false } ∧
        (createCallback env scope).RowsAffected = 1) := by
  obtain ⟨g1, _, _, _⟩ := prepareInsert_frame env scope
  have hp2 : (prepareInsert env scope).PrimaryField env = some (i, pf) := by
    rw [PrimaryField_congr env _ scope g1]
    exact hp
  obtain ⟨_, hlt⟩ := PrimaryField_get env _ i pf hp2
  constructor
  · intro result id hs hx hl ha
    rw [← usesLastInsertID_congr env (prepareInsert env scope) scope _ g1] at hs
    rw [createCallback_eq env scope h,
      executeInsert_exec_set env _ _ i pf result id hp2 hs hx hb hl ha]
    refine ⟨?_, rfl⟩
    simp only []
    rw [List.getElem?_set_self hlt]
  · intro v hs ha hq
    rw [← usesLastInsertID_congr env (prepareInsert env scope) scope _ g1] at hs
    rw [createCallback_eq env scope h, executeInsert_query_ok env _ _ i pf v hp2 hs ha hq]
    refine ⟨?_, rfl⟩
    simp only []
    rw [List.getElem?_set_self hlt]

theorem create_assigns_primary_key_witness :
    ((createCallback (sampleEnv (.ok 7)) (freshScope sampleFields)).fields[0]?
        = some { sampleField "ID" "id" (Value.int 7) with IsPrimaryKey := true } ∧
      (createCallback (sampleEnv (.ok 7)) (freshScope sampleFields)).RowsAffected = 1) ∧
    ((createCallback returningEnv (freshScope sampleFields)).fields[0]?
        = some { sampleField "ID" "id" (Value.int 7) with IsPrimaryKey := true } ∧
      (createCallback returningEnv (freshScope sampleFields)).RowsAffected = 1) := by
  have h2 := (create_assigns_primary_key (sampleEnv (.ok 7)) (freshScope sampleFields) 0
    { sampleField "ID" "id" (Value.int 0) with IsPrimaryKey := true } rfl rfl rfl).1
    { RowsAffected := 1, LastInsertId := .ok 7 } 7 rfl rfl rfl rfl
  have h3 := (create_assigns_primary_key returningEnv (freshScope sampleFields) 0
    { sampleField "ID" "id" (Value.int 0) with IsPrimaryKey := true } rfl rfl rfl).2
    (Value.int 7) rfl rfl rfl
  refine ⟨⟨?_, ?_⟩, ⟨?_, ?_⟩⟩
  · rw [h2.1]; rfl
  · rw [h2.2]
  · rw [h3.1]; rfl
  · rw [h3.2]

/-- C6 as stated fails: with no returning clause, a blank primary key and a
successful `Exec`, (1) a driver that reports the last insert id 0 leaves the
primary key blank (value 0) although no error is set; (2) a driver that
reports no last insert id leaves the blank primary key untouched; (3) a
primary field that is not addressable cannot receive the reported id 7: `Set`
returns `ErrUnaddressable`, which goes onto the scope, and the key stays
blank. -/
theorem create_primary_key_may_stay_blank :
    ((freshScope sampleFields).HasError = false ∧
      (freshScope sampleFields).PrimaryField (sampleEnv (.ok 0))
        = some (0, { sampleField "ID" "id" (Value.int 0) with IsPrimaryKey := true }) ∧
      usesLastInsertID (sampleEnv (.ok 0)) (freshScope sampleFields) ["name", "created_at"]
        = true ∧
      (createCallback (sampleEnv (.ok 0)) (freshScope sampleFields)).log
        = [Event.exec "INSERT INTO users (name,created_at) VALUES (?,?)"
            [Value.str "a", Value.time 0], Event.set 0 (Value.int 0)] ∧
      (createCallback (sampleEnv (.ok 0)) (freshScope sampleFields)).Error = none ∧
      (createCallback (sampleEnv (.ok 0)) (freshScope sampleFields)).RowsAffected = 1 ∧
      ((createCallback (sampleEnv (.ok 0)) (freshScope sampleFields)).fields[0]?).map
          (fun f => (f.IsBlank, f.value)) = some (true, Value.int 0)) ∧
    ((createCallback (sampleEnv (.error "no id")) (freshScope sampleFields)).log
        = [Event.exec "INSERT INTO users (name,created_at) VALUES (?,?)"
            [Value.str "a", Value.time 0]] ∧
      (createCallback (sampleEnv (.error "no id")) (freshScope sampleFields)).RowsAffected = 1 ∧
      (createCallback (sampleEnv (.error "no id")) (freshScope sampleFields)).Error
        = some "no id" ∧
      ((createCallback (sampleEnv (.error "no id")) (freshScope sampleFields)).fields[0]?).map
          (fun f => (f.IsBlank, f.value)) = some (true, Value.int 0)) ∧
    (((freshScope unaddressableFields).PrimaryField (sampleEnv (.ok 7))).map
          (fun p => (p.1, p.2.IsBlank, p.2.CanAddr)) = some (0, true, false) ∧
      (createCallback (sampleEnv (.ok 7)) (freshScope unaddressableFields)).log
        = [Event.exec "INSERT INTO users (name,created_at) VALUES (?,?)"
            [Value.str "a", Value.time 0]] ∧
      (createCallback (sampleEnv (.ok 7)) (freshScope unaddressableFields)).RowsAffected = 1 ∧
      (createCallback (sampleEnv (.ok 7)) (freshScope unaddressableFields)).Error
        = some ErrUnaddressable ∧
      ((createCallback (sampleEnv (.ok 7)) (freshScope unaddressableFields)).fields[0]?).map
          (fun f => (f.IsBlank, f.value)) = some (true, Value.int 0)) := by
  refine ⟨⟨rfl, rfl, rfl, rfl, rfl, rfl, rfl⟩, ⟨rfl, rfl, rfl, rfl⟩, ⟨rfl, rfl, rfl, rfl, rfl⟩⟩

theorem executeInsert_events (env : Env) (q : Scope) (columns : List String) (i : Nat)
    (pf : Field) (hp : q.PrimaryField env = some (i, pf)) :
    ∃ evs, (executeInsert env q columns).log = q.log ++ evs ∧
      (evs.filter (Event.writes i)).length ≤ 1 ∧
      (usesLastInsertID env q columns = true → pf.IsBlank = false →
        evs.filter (Event.writes i) = [] ∧ (executeInsert env q columns).fields = q.fields) ∧
      (usesLastInsertID env q columns = false → pf.CanAddr = true →
        ∀ v, env.QueryRow q.SQL q.SQLVars = .ok v →
          evs.filter (Event.writes i) = [Event.scan i v] ∧
          (executeInsert env q columns).fields[i]?
            = some { pf with value := v, IsBlank := false }) ∧
      (usesLastInsertID env q columns = false → pf.CanAddr = false →
        evs = [] ∧ (executeInsert env q columns).fields = q.fields) := by
  obtain ⟨_, hlt⟩ := PrimaryField_get env q i pf hp
  cases hs : usesLastInsertID env q columns with
  | true =>
    cases hx : env.Exec q.SQL q.SQLVars with
    | error err =>
      rw [executeInsert_exec_error env q columns i pf err hp hs hx]
      refine ⟨[Event.exec q.SQL q.SQLVars], ?_, ?_, ?_, ?_, ?_⟩
      · rw [(Err_frame _ _).2.2.2.2.2.2.2]; rfl
      · simp [Event.writes]
      · intro _ _
        exact ⟨by simp [Event.writes], (Err_frame _ _).1⟩
      · intro hc; cases hc
      · intro hc; cases hc
    | ok result =>
      cases hb : pf.IsBlank with
      | false =>
        rw [executeInsert_exec_keep env q columns i pf result hp hs hx hb]
        refine ⟨[Event.exec q.SQL q.SQLVars], rfl, ?_, ?_, ?_, ?_⟩
        · simp [Event.writes]
        · intro _ _
          exact ⟨by simp [Event.writes], rfl⟩
        · intro hc; cases hc
        · intro hc; cases hc
      | true =>
        cases hl : result.LastInsertId with
        | ok id =>
          cases ha : pf.CanAddr with
          | true =>
            rw [executeInsert_exec_set env q columns i pf result id hp hs hx hb hl ha]
            refine ⟨[Event.exec q.SQL q.SQLVars, Event.set i (Value.int id)], rfl, ?_, ?_, ?_, ?_⟩
            · simp [Event.writes]
            · intro _ hc; cases hc
            · intro hc; cases hc
            · intro hc; cases hc
          | false =>
            rw [executeInsert_exec_unset env q columns i pf result id hp hs hx hb hl ha]
            refine ⟨[Event.exec q.SQL q.SQLVars], ?_, ?_, ?_, ?_, ?_⟩
            · rw [(Err_frame _ _).2.2.2.2.2.2.2]; rfl
            · simp [Event.writes]
            · intro _ hc; cases hc
            · intro hc; cases hc
            · intro hc; cases hc
        | error err =>
          rw [executeInsert_exec_noid env q columns i pf result err hp hs hx hb hl]
          refine ⟨[Event.exec q.SQL q.SQLVars], ?_, ?_, ?_, ?_, ?_⟩
          · rw [(Err_frame _ _).2.2.2.2.2.2.2]; rfl
          · simp [Event.writes]
          · intro _ hc; cases hc
          · intro hc; cases hc
          · intro hc; cases hc
  | false =>
    cases ha : pf.CanAddr with
    | false =>
      rw [executeInsert_unaddressable env q columns i pf hp hs ha]
      refine ⟨[], ?_, ?_, ?_, ?_, ?_⟩
      · rw [(Err_frame _ _).2.2.2.2.2.2.2]; simp
      · simp
      · intro hc; cases hc
      · intro _ hc; cases hc
      · intro _ _
        exact ⟨rfl, (Err_frame _ _).1⟩
    | true =>
      cases hq : env.QueryRow q.SQL q.SQLVars with
      | ok v =>
        rw [executeInsert_query_ok env q columns i pf v hp hs ha hq]
        refine ⟨[Event.queryRow q.SQL q.SQLVars, Event.scan i v], rfl, ?_, ?_, ?_, ?_⟩
        · simp [Event.writes]
        · intro hc; cases hc
        · intro _ _ w hw
          cases hw
          refine ⟨by simp [Event.writes], ?_⟩
          simp only []
          rw [List.getElem?_set_self hlt, ha]
        · intro _ hc; cases hc
      | error err =>
        rw [executeInsert_query_error env q columns i pf err hp hs ha hq]
        refine ⟨[Event.queryRow q.SQL q.SQLVars], ?_, ?_, ?_, ?_, ?_⟩
        · rw [(Err_frame _ _).2.2.2.2.2.2.2]
        · simp [Event.writes]
        · intro hc; cases hc
        · intro _ _ w hw
          cases hw
        · intro _ hc; cases hc

/-- C9, as amended: in a run of `createCallback` on a scope with no error and a
primary field, the primary field is written at most once.  With no returning
clause (second strategy) a primary key that is not blank on entry is never
assigned and no field changes.  With a returning clause (third strategy) the
primary field is scanned into whenever it is addressable and the row is read
without error, blank or not, and it then holds the scanned value and is marked
non-blank; a primary field that is not addressable is not written. -/
theorem primary_key_written_at_most_once (env : Env) (scope : Scope) (i : Nat) (pf : Field)
    (h : scope.HasError = false) (hp : scope.PrimaryField env = some (i, pf)) :
    (createCallback env scope).log = scope.log ++ createEvents env scope ∧
    ((createEvents env scope).filter (Event.writes i)).length ≤ 1 ∧
    (usesLastInsertID env scope (createLoop env scope).2.columns = true →
      pf.IsBlank = false →
        (createEvents env scope).filter (Event.writes i) = [] ∧
        (createCallback env scope).fields = scope.fields) ∧
    (usesLastInsertID env scope (createLoop env scope).2.columns = false →
      pf.CanAddr = true →
      ∀ v, env.QueryRow (prepareInsert env scope).SQL (prepareInsert env scope).SQLVars = .ok v →
        (createEvents env scope).filter (Event.writes i) = [Event.scan i v] ∧
        (createCallback env scope).fields[i]? = some { pf with value := v, IsBlank := false }) ∧
    (usesLastInsertID env scope (createLoop env scope).2.columns = false →
      pf.CanAddr = false →
        createEvents env scope = [] ∧ (createCallback env scope).fields = scope.fields) := by
  obtain ⟨g1, _, _, g4⟩ := prepareInsert_frame env scope
  have hp2 : (prepareInsert env scope).PrimaryField env = some (i, pf) := by
    rw [PrimaryField_congr env _ scope g1]
    exact hp
  obtain ⟨evs, e1, e2, e3, e4, e5⟩ :=
    executeInsert_events env (prepareInsert env scope) (createLoop env scope).2.columns i pf hp2
  rw [usesLastInsertID_congr env (prepareInsert env scope) scope _ g1] at e3 e4 e5
  rw [← createCallback_eq env scope h] at e1 e3 e4 e5
  rw [g4] at e1
  rw [g1] at e3 e5
  have hev : createEvents env scope = evs := by
    simp [createEvents, e1]
  rw [hev]
  exact ⟨e1, e2, e3, e4, e5⟩

theorem primary_key_written_at_most_once_witness :
    (freshScope keyedFields).HasError = false ∧
    (freshScope keyedFields).PrimaryField (sampleEnv (.ok 7))
      = some (0, { sampleField "ID" "id" (Value.int 5) with IsPrimaryKey := true }) ∧
    (createCallback (sampleEnv (.ok 7)) (freshScope keyedFields)).fields = keyedFields ∧
    (createCallback (sampleEnv (.ok 7)) (freshScope keyedFields)).log
      = [Event.exec "INSERT INTO users (id,name) VALUES (?,?)" [Value.int 5, Value.str "a"]] := by
  have h := primary_key_written_at_most_once (sampleEnv (.ok 7)) (freshScope keyedFields) 0
    { sampleField "ID" "id" (Value.int 5) with IsPrimaryKey := true } rfl rfl
  refine ⟨rfl, rfl, (h.2.2.1 rfl rfl).2, ?_⟩
  rw [h.1]
  rfl

/-- C9 as stated fails: with a returning clause, a primary key that holds 5 (not
blank) on entry is scanned into by `createCallback` and holds the returned 7
afterwards. -/
theorem nonblank_primary_key_is_scanned_into :
    (freshScope keyedFields).HasError = false ∧
    (freshScope keyedFields).PrimaryField returningEnv
      = some (0, { sampleField "ID" "id" (Value.int 5) with IsPrimaryKey := true }) ∧
    ((freshScope keyedFields).fields[0]?).map (fun f => (f.IsBlank, f.value))
      = some (false, Value.int 5) ∧
    (createCallback returningEnv (freshScope keyedFields)).log
      = [Event.queryRow "INSERT INTO users (id,name) VALUES (?,?) RETURNING id"
          [Value.int 5, Value.str "a"], Event.scan 0 (Value.int 7)] ∧
    ((createCallback returningEnv (freshScope keyedFields)).fields[0]?).map
        (fun f => (f.IsBlank, f.value)) = some (false, Value.int 7) := by
  refine ⟨rfl, rfl, rfl, rfl, rfl⟩

/-- C10: on a scope whose error is set, `forceReloadAfterCreateCallback`
changes nothing: it adds no read to the log and leaves the entity as it was,
whether or not the instance-local store holds a list of blank columns.  So
when `createCallback` ended with an error, the reload step after it does
nothing either. -/
theorem reload_skipped_on_error (env : Env) (scope : Scope) (h : scope.HasError = true) :
    forceReloadAfterCreateCallback env scope = scope ∧
    (forceReloadAfterCreateCallback env scope).log.filter Event.isSQL
      = scope.log.filter Event.isSQL ∧
    (forceReloadAfterCreateCallback env scope).fields = scope.fields := by
  have hs : forceReloadAfterCreateCallback env scope = scope := by
    unfold forceReloadAfterCreateCallback
    cases scope.InstanceGet "gorm:blank_columns_with_default_value" with
    | none => rfl
    | some cols => simp [Scope.Scan, h]
  rw [hs]
  exact ⟨rfl, rfl, rfl⟩

theorem reload_skipped_on_error_witness :
    (createCallback failingEnv (freshScope sampleFields)).Error = some "insert failed" ∧
    (createCallback failingEnv (freshScope sampleFields)).InstanceGet
        "gorm:blank_columns_with_default_value" = some ["status"] ∧
    forceReloadAfterCreateCallback failingEnv (createCallback failingEnv (freshScope sampleFields))
      = createCallback failingEnv (freshScope sampleFields) :=
  ⟨rfl, rfl,
    (reload_skipped_on_error failingEnv (createCallback failingEnv (freshScope sampleFields))
      rfl).1⟩

/-- C7: the create chain after `init` holds, in this order, begin-transaction,
the before-create hooks, the belongs-to save, the timestamp update, the insert,
the save of the other associations, the after-create hooks and
commit-or-rollback, with begin-transaction first and commit-or-rollback last;
the one further step, the reload, sits right after the insert; registration
appends in call order. -/
theorem init_chain_order :
    init DefaultCallback
      = [ ("gorm:begin_transaction", Step.beginTransactionCallback),
          ("gorm:before_create", Step.beforeCreateCallback),
          ("gorm:save_before_associations", Step.saveBeforeAssociationsCallback),
          ("gorm:update_time_stamp", Step.updateTimeStampForCreateCallback),
          ("gorm:create", Step.createCallback),
          ("gorm:force_reload_after_create", Step.forceReloadAfterCreateCallback),
          ("gorm:save_after_associations", Step.saveAfterAssociationsCallback),
          ("gorm:after_create", Step.afterCreateCallback),
          ("gorm:commit_or_rollback_transaction", Step.commitOrRollbackTransactionCallback) ] ∧
    List.Sublist
      [ Step.beginTransactionCallback, Step.beforeCreateCallback,
        Step.saveBeforeAssociationsCallback, Step.updateTimeStampForCreateCallback,
        Step.createCallback, Step.saveAfterAssociationsCallback, Step.afterCreateCallback,
        Step.commitOrRollbackTransactionCallback ]
      ((init DefaultCallback).map Prod.snd) ∧
    ((init DefaultCallback).map Prod.snd).head? = some Step.beginTransactionCallback ∧
    ((init DefaultCallback).map Prod.snd).getLast? = some Step.commitOrRollbackTransactionCallback ∧
    (∀ creates name callback, Register creates name callback = creates ++ [(name, callback)]) ∧
    (∀ creates, init creates = creates ++ init DefaultCallback) := by
  refine ⟨rfl, by decide, rfl, rfl, fun _ _ _ => rfl, ?_⟩
  intro creates
  simp [init, Register, DefaultCallback]

end Gorm
